import Mathlib

/-!
Shallow embedding of the fiscal validation engine and the anomaly/pattern
analysis layer of the repository (`fiscal/domain/validations.py` and
`eda/domain/analysis.py`).

Modelling conventions:
* Tabular cells are `Cell`: null (`na`, pandas `NaN`/`NaT`), strings, numbers
  (modelled as exact rationals in place of float64), or tuples of strings
  (used only by the `destino_esperado` derived column).
* A data frame is an ordered column-name list plus a list of rows; each row is
  an association list from column name to cell.  Selecting an absent column is
  a pandas `KeyError`, surfaced through `Except`.
* Python `round`/pandas `.round(2)` is modelled as exact half-to-even rounding
  on rationals.
* `pd.to_numeric(errors="coerce")` is modelled by `Cell.toNum`, with a plain
  decimal parser for strings (sign, digits, optional fractional part).
* `astype(str)` rendering of a null cell is `"nan"`; numeric cells render as
  float64 reprs do for decimal values (integral values get a trailing `.0`).
-/

deriving instance DecidableEq for Except

namespace Projeto

/-- A single cell of a tabular dataset: null, string, number (float64 modelled
as an exact rational), or a tuple of strings. -/
inductive Cell where
  | na : Cell
  | str (s : String) : Cell
  | num (q : ℚ) : Cell
  | strs (l : List String) : Cell
deriving DecidableEq, Repr

/-- A data-frame row: association list from column name to cell value. -/
abbrev Row : Type := List (String × Cell)

/-- In-memory table: ordered column names and rows.  Rows of a well-formed
frame bind exactly the names in `cols`. -/
structure DataFrame where
  cols : List String
  rows : List Row
deriving DecidableEq

/-- The empty data frame (`pd.DataFrame()`). -/
def DataFrame.empty : DataFrame := ⟨[], []⟩

/-- Cell of row `r` in column `c` (pandas row access `r[c]`; well-formed rows
always bind the accessed column, so the default is never exercised once the
frame-level column check has passed). -/
def getCell (r : Row) (c : String) : Cell :=
  ((List.lookup c r).getD Cell.na)

/-- Errors raised while the rule battery is running: selecting an absent
column (`KeyError`) or subscripting a non-string (`TypeError`). -/
inductive PdRunError where
  | keyError (col : String) : PdRunError
  | typeError : PdRunError
deriving DecidableEq, Repr

/-- Errors of `run_core_validations`: the explicit `ValueError` precondition
failure for missing mandatory columns, or an error escaping a rule. -/
inductive PdError where
  | precondition (msg : String) : PdError
  | runtime (e : PdRunError) : PdError
deriving DecidableEq, Repr

/-- First missing column among `cs` raises `KeyError` (pandas column
selection `df[cs]`). -/
def requireCols (df : DataFrame) (cs : List String) : Except PdRunError Unit :=
  match cs.find? (fun c => !(df.cols.contains c)) with
  | some c => .error (.keyError c)
  | none => .ok ()

/-- Keep the listed columns of a row, in order. -/
def projectRow (r : Row) (cs : List String) : Row :=
  cs.map (fun c => (c, getCell r c))

/-- Column selection `df[cs]`: `KeyError` on an absent column, otherwise the
projected frame. -/
def selectCols (df : DataFrame) (cs : List String) : Except PdRunError DataFrame := do
  requireCols df cs
  pure ⟨cs, df.rows.map (fun r => projectRow r cs)⟩

/-- Round a rational to the nearest integer, ties to even (Python `round`,
numpy half-even). -/
def rhe (q : ℚ) : ℤ :=
  let f : ℤ := ⌊q⌋
  let r : ℚ := q - f
  if r < 1/2 then f
  else if 1/2 < r then f + 1
  else if f % 2 = 0 then f else f + 1

/-- `round(x, 2)` / pandas `.round(2)`: half-even at two decimals. -/
def round2 (q : ℚ) : ℚ := (rhe (100 * q) : ℚ) / 100

/-- `round(x, 3)`: half-even at three decimals. -/
def round3 (q : ℚ) : ℚ := (rhe (1000 * q) : ℚ) / 1000

/-- Digits (most significant first) to a natural number. -/
def digitsToNat (ds : List Char) : ℕ :=
  ds.foldl (fun n c => 10 * n + (c.toNat - 48)) 0

/-- Plain decimal parser standing for `pd.to_numeric(errors="coerce")` on a
string: optional sign, integer digits, optional `.` and fraction digits; at
least one digit overall; anything else coerces to null. -/
def parseDecimal (s : String) : Option ℚ :=
  let cs := s.data
  let sign : ℚ := if cs.take 1 = ['-'] then -1 else 1
  let cs := if cs.take 1 = ['-'] || cs.take 1 = ['+'] then cs.drop 1 else cs
  let intDigits := cs.takeWhile Char.isDigit
  let rest := cs.drop intDigits.length
  match rest with
  | [] =>
      if intDigits.isEmpty then none
      else some (sign * (digitsToNat intDigits : ℚ))
  | '.' :: frac =>
      if frac.all Char.isDigit && !(intDigits.isEmpty && frac.isEmpty) then
        some (sign * ((digitsToNat intDigits : ℚ)
          + (digitsToNat frac : ℚ) / (10 ^ frac.length : ℚ)))
      else none
  | _ => none

/-- `pd.to_numeric(errors="coerce")` on one cell. -/
def Cell.toNum : Cell → Option ℚ
  | .num q => some q
  | .str s => parseDecimal s
  | _ => none

/-- Decimal digit list of a natural number (most significant first). -/
def natDigits (n : ℕ) : List Char :=
  (Nat.toDigits 10 n)

/-- Render a rational the way `astype(str)` renders a float64 holding an exact
decimal value: minimal decimal digits, at least one fractional digit (so an
integral float renders with a trailing `.0`).  Rationals that are not exact
decimals do not arise from the tabular data this engine consumes; they fall
back to the raw rational rendering. -/
def ratToPyStr (q : ℚ) : String :=
  match (List.range 19).find? (fun k => ((q.den : ℤ)) ∣ (10 : ℤ) ^ k) with
  | some k =>
      let scaled : ℤ := q.num * ((10 : ℤ) ^ k) / (q.den : ℤ)
      let mag : ℕ := scaled.natAbs
      let sign := if scaled < 0 then "-" else ""
      let intPart : ℕ := mag / 10 ^ k
      let fracPart : ℕ := mag % 10 ^ k
      let fracDigits :=
        if k = 0 then "0"
        else String.mk (List.replicate (k - (natDigits fracPart).length) '0'
              ++ natDigits fracPart)
      sign ++ String.mk (natDigits intPart) ++ "." ++ fracDigits
  | none => toString q

/-- `astype(str)` on one cell: nulls render as `"nan"`. -/
def Cell.pyStr : Cell → String
  | .na => "nan"
  | .str s => s
  | .num q => ratToPyStr q
  | .strs l => toString l

/-- Leftmost maximal run of decimal digits (`.str.extract(r"(\d+)")` on a
string value); `none` when the string holds no digit. -/
def extractDigitRun (s : String) : Option String :=
  let rec go : List Char → Option (List Char)
    | [] => none
    | c :: t => if c.isDigit then some (c :: t.takeWhile Char.isDigit) else go t
  (go s.data).map String.mk

/-- `.str.extract(r"(\d)")` on a raw cell: the first digit of a string cell,
null for non-string cells (the `.str` accessor yields `NaN` there). -/
def strExtractOneDigit : Cell → Option String
  | .str s => (s.data.find? Char.isDigit).map (fun c => String.mk [c])
  | _ => none

/-- `re.sub(r".0$", "", s)`: the dot is an unescaped regex wildcard, so the
pattern strips ANY character (except a newline) followed by `'0'` at the end
of the string, or immediately before a single trailing newline (`$`
semantics of Python `re`). -/
def pySubDot0End (s : String) : String :=
  match s.data.reverse with
  | '0' :: c :: rest =>
      if c ≠ '\n' then String.mk rest.reverse else s
  | '\n' :: '0' :: c :: rest =>
      if c ≠ '\n' then String.mk (rest.reverse ++ ['\n']) else s
  | _ => s

/-- `.str.fullmatch(r"\d{8}")` on a string. -/
def fullmatch8Digits (s : String) : Bool :=
  s.length = 8 && s.data.all Char.isDigit

/-- Keep the first occurrence of every key (`drop_duplicates(subset=key)` /
first-seen iteration order). -/
def dedupByKeyFirst {α κ : Type} [DecidableEq κ] (key : α → κ) : List α → List κ → List α
  | [], _ => []
  | a :: t, seen =>
      if key a ∈ seen then dedupByKeyFirst key t seen
      else a :: dedupByKeyFirst key t (key a :: seen)

/-- Row-wise `apply` that propagates the first raised error. -/
def mapME {α β : Type} (f : α → Except PdRunError β) : List α → Except PdRunError (List β)
  | [] => .ok []
  | a :: t => do
      let b ← f a
      let bs ← mapME f t
      pure (b :: bs)

/-! ## fiscal/domain/validations.py -/

/-- `MANDATORY_COLUMNS` (a Python set; held here in source text order, every
use is order-insensitive or explicitly sorted). -/
def MANDATORY_COLUMNS : List String :=
  ["chave_acesso", "numero", "numero_item", "cfop", "ncm",
   "quantidade", "valor_unitario", "valor_total_item", "valor_total_nota"]

/-- `_TOTAL_NOTA_FALLBACK`. -/
def TOTAL_NOTA_FALLBACK : List String :=
  ["valor_total_nota", "valor_nota_fiscal"]

/-- `CFOP_PREFIX_RULES`: destination-operation code to expected CFOP leading
digits (the `label` field is never read by the engine). -/
def cfopRules : List (String × List String) :=
  [("1", ["5"]), ("2", ["6"]), ("3", ["7"])]

/-- `ValidationResult` dataclass. -/
structure ValidationResult where
  identifier : String
  title : String
  severity : String
  conclusion : String
  details : DataFrame
deriving DecidableEq

/-- Mandatory columns still missing from `df` after accepting
`valor_nota_fiscal` in place of `valor_total_nota` (lines 46-48 of
`run_core_validations`). -/
def missingColumns (df : DataFrame) : List String :=
  let missing := MANDATORY_COLUMNS.filter (fun c => !(df.cols.contains c))
  if missing.contains "valor_total_nota" && df.cols.contains "valor_nota_fiscal"
  then missing.erase "valor_total_nota"
  else missing

/-- `_detect_duplicate_items`: rows whose (`chave_acesso`, `numero_item`)
pair occurs more than once (`duplicated(keep=False)`; null keys compare equal
to each other, as in pandas). -/
def detectDuplicateItems (df : DataFrame) : Except PdRunError DataFrame := do
  requireCols df ["chave_acesso", "numero_item"]
  let dupKey : Row → Cell × Cell := fun r => (getCell r "chave_acesso", getCell r "numero_item")
  let subset := df.rows.filter (fun r => 2 ≤ df.rows.countP (fun s => dupKey s = dupKey r))
  selectCols ⟨df.cols, subset⟩
    ["chave_acesso", "numero", "numero_item", "descricao_item", "valor_total_item"]

/-- Expected CFOP leading digits for a destination code (`CFOP_PREFIX_RULES`
lookup used by `_detect_cfop_mismatch`). -/
def expectedFor (d : String) : Option (List String) :=
  List.lookup d cfopRules

/-- The row-wise `mismatch` closure of `_detect_cfop_mismatch`.  `destCode` is
the extracted `destino_codigo`, `cfopRun` the extracted `cfop_str`.  When the
destination code is null, `dest not in CFOP_PREFIX_RULES` short-circuits to no
mismatch; when it is recognized but `cfop_str` is null, the null (`NaN`, a
truthy float) is subscripted and a `TypeError` is raised. -/
def cfopMismatchRow (destCode : Option String) (cfopRun : Option String) :
    Except PdRunError Bool :=
  match destCode with
  | none => pure false
  | some d =>
    match expectedFor d with
    | none => pure false
    | some expected =>
      match cfopRun with
      | none => .error .typeError
      | some s => pure (!(expected.contains (s.take 1)))

/-- `_detect_cfop_mismatch`: skipped without a `destino_operacao` column;
otherwise flags rows whose CFOP leading digit is outside the expected family
of the recognized destination code.  (The `cfop_prefix` zfill column computed
in the source is never read afterwards and is omitted.) -/
def detectCfopMismatch (df : DataFrame) : Except PdRunError DataFrame := do
  if !(df.cols.contains "destino_operacao") then
    pure DataFrame.empty
  else do
    let work ← selectCols df
      ["chave_acesso", "numero", "numero_item", "cfop", "destino_operacao", "valor_total_item"]
    let cfopRun : Row → Option String := fun r => extractDigitRun (Cell.pyStr (getCell r "cfop"))
    let destCode : Row → Option String := fun r => strExtractOneDigit (getCell r "destino_operacao")
    let mask ← mapME (fun r => cfopMismatchRow (destCode r) (cfopRun r)) work.rows
    let issues := (work.rows.zip mask).filterMap (fun p => if p.2 then some p.1 else none)
    if issues.isEmpty then
      pure DataFrame.empty
    else
      let esperado : Row → Cell := fun r =>
        match destCode r with
        | some d => match expectedFor d with
          | some e => .strs e
          | none => .strs []
        | none => .strs []
      let outRows := issues.map (fun r =>
        projectRow r ["chave_acesso", "numero", "numero_item", "cfop", "destino_operacao"]
          ++ [("destino_esperado", esperado r)]
          ++ projectRow r ["valor_total_item"])
      pure ⟨["chave_acesso", "numero", "numero_item", "cfop", "destino_operacao",
             "destino_esperado", "valor_total_item"], outRows⟩

/-- `_detect_invalid_ncm`: renders the NCM cell as a string, applies
`re.sub(r".0$", "", ·)` (unescaped-dot wildcard, see `pySubDot0End`), and
flags the row unless the result fullmatches eight digits. -/
def detectInvalidNcm (df : DataFrame) : Except PdRunError DataFrame := do
  let work ← selectCols df ["chave_acesso", "numero", "numero_item", "ncm", "descricao_item"]
  let issues := work.rows.filter (fun r =>
    !(fullmatch8Digits (pySubDot0End (Cell.pyStr (getCell r "ncm")))))
  selectCols ⟨work.cols, issues⟩ ["chave_acesso", "numero", "numero_item", "ncm", "descricao_item"]

/-- `str(row[col]) if pd.notna(row[col]) else ""` in `_detect_cnpj_issues`. -/
def cnpjRawValue : Cell → String
  | .na => ""
  | c => Cell.pyStr c

/-- `_detect_cnpj_issues`: for each present CNPJ column and each row, keep the
digits of the rendered value; a non-empty digit string of length ≠ 14 yields
an output record. -/
def detectCnpjIssues (df : DataFrame) : Except PdRunError DataFrame := do
  let cols := ["cnpj_emitente", "cnpj_destinatario"].filter (fun c => df.cols.contains c)
  if cols.isEmpty then
    pure DataFrame.empty
  else do
    let work ← selectCols df (cols ++ ["chave_acesso", "numero", "valor_total_item"])
    let outRows := work.rows.flatMap (fun r =>
      cols.filterMap (fun col =>
        let value := cnpjRawValue (getCell r col)
        let digits := value.data.filter Char.isDigit
        if !digits.isEmpty && digits.length ≠ 14 then
          some [("chave_acesso", getCell r "chave_acesso"),
                ("numero", getCell r "numero"),
                ("campo", Cell.str col),
                ("valor_original", Cell.str value),
                ("quantidade_digitos", Cell.num (digits.length : ℚ)),
                ("valor_total_item", getCell r "valor_total_item")]
        else none))
    pure ⟨["chave_acesso", "numero", "campo", "valor_original",
           "quantidade_digitos", "valor_total_item"], outRows⟩

/-- `_detect_item_total_mismatch`: coerce the three numeric inputs, drop rows
where any fails to parse, compare `valor_total_item` with
`round(quantidade * valor_unitario, 2)` and flag when the rounded difference
exceeds 1.0 in absolute value. -/
def detectItemTotalMismatch (df : DataFrame) : Except PdRunError DataFrame := do
  let work ← selectCols df
    ["chave_acesso", "numero", "numero_item", "quantidade", "valor_unitario",
     "valor_total_item", "descricao_item"]
  let parsed := work.rows.filterMap (fun r =>
    match (getCell r "quantidade").toNum, (getCell r "valor_unitario").toNum,
          (getCell r "valor_total_item").toNum with
    | some q, some vu, some vti => some (r, q, vu, vti)
    | _, _, _ => none)
  let issues := parsed.filter (fun x => 1 < |round2 (x.2.2.2 - round2 (x.2.1 * x.2.2.1))|)
  pure ⟨["chave_acesso", "numero", "numero_item", "descricao_item", "quantidade",
         "valor_unitario", "valor_total_item", "esperado", "diferenca"],
    issues.map (fun x =>
      let r := x.1; let q := x.2.1; let vu := x.2.2.1; let vti := x.2.2.2
      let esperado := round2 (q * vu)
      projectRow r ["chave_acesso", "numero", "numero_item", "descricao_item"]
        ++ [("quantidade", Cell.num q), ("valor_unitario", Cell.num vu),
            ("valor_total_item", Cell.num vti), ("esperado", Cell.num esperado),
            ("diferenca", Cell.num (round2 (vti - esperado)))])⟩

/-- Pandas `sum` over an object/numeric column slice: nulls are skipped, an
all-null (or empty) slice sums to `0`; a slice of numbers adds them, a slice
of strings concatenates, and mixing the two raises `TypeError`. -/
def pdSum (cells : List Cell) : Except PdRunError Cell :=
  let vals := cells.filter (fun c => c ≠ Cell.na)
  if vals.isEmpty then .ok (.num 0)
  else if vals.all (fun c => match c with | .num _ => true | _ => false) then
    .ok (.num (vals.foldl (fun acc c => match c with | .num q => acc + q | _ => acc) 0))
  else if vals.all (fun c => match c with | .str _ => true | _ => false) then
    .ok (.str (vals.foldl (fun acc c => match c with | .str s => acc ++ s | _ => acc) ""))
  else .error .typeError

/-- Document key (`chave_acesso`, `numero`) used by
`_detect_nota_total_mismatch`; null keys group together (`dropna=False`). -/
def notaKey (r : Row) : Cell × Cell := (getCell r "chave_acesso", getCell r "numero")

/-- `_detect_nota_total_mismatch`: resolve the note-total column through the
fallback list (skip when neither name exists), sum `valor_total_item` per
(`chave_acesso`, `numero`) group, keep the first row of each document
(`drop_duplicates`) merged with its group sum, coerce both totals, and flag
documents whose rounded difference exceeds 1.0 in absolute value.  The
groupby-plus-left-merge of the source attaches to each first-occurrence row
exactly the sum over all rows sharing its key, which is how the merge is
rendered here. -/
def detectNotaTotalMismatch (df : DataFrame) : Except PdRunError DataFrame := do
  match TOTAL_NOTA_FALLBACK.find? (fun c => df.cols.contains c) with
  | none => pure DataFrame.empty
  | some notaCol => do
    let work ← selectCols df ["chave_acesso", "numero", "valor_total_item", notaCol]
    let refRows := dedupByKeyFirst notaKey work.rows []
    let merged ← mapME (fun r => do
      let soma ← pdSum ((work.rows.filter (fun s => notaKey s = notaKey r)).map
        (fun s => getCell s "valor_total_item"))
      pure (r, soma)) refRows
    let withDiff := merged.map (fun p =>
      let total? := (getCell p.1 notaCol).toNum
      let soma? := Cell.toNum p.2
      let dif? : Option ℚ := match total?, soma? with
        | some t, some s => some (round2 (t - s))
        | _, _ => none
      (p.1, total?, soma?, dif?))
    let issues := withDiff.filter (fun x =>
      match x.2.2.2 with
      | some d => 1 < |d|
      | none => false)
    pure ⟨["chave_acesso", "numero", notaCol, "soma_itens", "diferenca"],
      issues.map (fun x =>
        let toCell : Option ℚ → Cell := fun o => match o with
          | some q => .num q
          | none => .na
        [("chave_acesso", getCell x.1 "chave_acesso"),
         ("numero", getCell x.1 "numero"),
         (notaCol, toCell x.2.1),
         ("soma_itens", toCell x.2.2.1),
         ("diferenca", toCell x.2.2.2)])⟩

/-- `_detect_icms_mismatch`: skipped unless the three ICMS columns are all
present; coerce them, drop unparseable rows, compare `valor_icms` with
`round(base * aliquota / 100, 2)` and flag when the rounded difference
exceeds 1.0 in absolute value. -/
def detectIcmsMismatch (df : DataFrame) : Except PdRunError DataFrame := do
  if !(["aliquota_icms", "base_icms", "valor_icms"].all (fun c => df.cols.contains c)) then
    pure DataFrame.empty
  else do
    let work ← selectCols df
      ["chave_acesso", "numero", "numero_item", "descricao_item",
       "base_icms", "aliquota_icms", "valor_icms"]
    let parsed := work.rows.filterMap (fun r =>
      match (getCell r "base_icms").toNum, (getCell r "aliquota_icms").toNum,
            (getCell r "valor_icms").toNum with
      | some b, some a, some v => some (r, b, a, v)
      | _, _, _ => none)
    let issues := parsed.filter (fun x =>
      1 < |round2 (x.2.2.2 - round2 (x.2.1 * (x.2.2.1 / 100)))|)
    pure ⟨["chave_acesso", "numero", "numero_item", "descricao_item",
           "base_icms", "aliquota_icms", "valor_icms", "calculado", "diferenca"],
      issues.map (fun x =>
        let r := x.1; let b := x.2.1; let a := x.2.2.1; let v := x.2.2.2
        let calculado := round2 (b * (a / 100))
        projectRow r ["chave_acesso", "numero", "numero_item", "descricao_item"]
          ++ [("base_icms", Cell.num b), ("aliquota_icms", Cell.num a),
              ("valor_icms", Cell.num v), ("calculado", Cell.num calculado),
              ("diferenca", Cell.num (round2 (v - calculado)))])⟩

/-- Append a `ValidationResult` for a rule's details table unless it is empty
(`if not details.empty: checks.append(...)`). -/
def appendCheck (checks : List ValidationResult) (id title severity conclusion : String)
    (details : DataFrame) : List ValidationResult :=
  if details.rows.isEmpty then checks
  else checks ++ [⟨id, title, severity, conclusion, details⟩]

/-- The rule battery of `run_core_validations` after the precondition check,
in source order. -/
def runChecks (df : DataFrame) : Except PdRunError (List ValidationResult) := do
  let dup ← detectDuplicateItems df
  let checks := appendCheck [] "duplicate_items" "Itens duplicados na nota" "alta"
    "Foram identificados itens com mesma chave de acesso e número de item cadastrados mais de uma vez." dup
  let cfop ← detectCfopMismatch df
  let checks := appendCheck checks "cfop_destino" "CFOP incompatível com o destino da operação" "alta"
    "Há documentos cujo CFOP não condiz com o destino informado (interno, interestadual ou exterior)." cfop
  let ncm ← detectInvalidNcm df
  let checks := appendCheck checks "ncm_invalido" "NCM inválido ou incompleto" "media"
    "Revise os códigos NCM abaixo; devem possuir oito dígitos e conter apenas números." ncm
  let cnpj ← detectCnpjIssues df
  let checks := appendCheck checks "cnpj_invalido" "CNPJ emitente/destinatário inconsistente" "media"
    "CNPJs com quantidade de dígitos incorreta ou caracteres inválidos foram encontrados." cnpj
  let item ← detectItemTotalMismatch df
  let checks := appendCheck checks "valor_item_divergente" "Valor total do item difere da multiplicação" "alta"
    "Em alguns itens o valor total informado não corresponde à multiplicação de quantidade por valor unitário." item
  let nota ← detectNotaTotalMismatch df
  let checks := appendCheck checks "valor_nota_divergente" "Valor total da nota difere da soma dos itens" "alta"
    "Notas fiscais com divergência entre o valor total informado e a soma dos itens foram encontradas." nota
  let icms ← detectIcmsMismatch df
  let checks := appendCheck checks "icms_incoerente" "ICMS incoerente" "media"
    "Os itens listados apresentam divergência entre base, alíquota e valor de ICMS." icms
  pure checks

/-- Sort strings ascending (Python `sorted` over code points). -/
def sortStrings (l : List String) : List String :=
  List.insertionSort (fun a b => a ≤ b) l

/-- `run_core_validations`: raises `ValueError` listing the (sorted) missing
mandatory columns after the fallback, otherwise runs the rule battery. -/
def run_core_validations (df : DataFrame) : Except PdError (List ValidationResult) :=
  let missing := missingColumns df
  if missing.isEmpty then
    match runChecks df with
    | .ok checks => .ok checks
    | .error e => .error (.runtime e)
  else
    .error (.precondition ("Colunas obrigatórias ausentes: "
      ++ String.intercalate ", " (sortStrings missing) ++ "."))

/-- Descending order on the second (count/score) component — the comparator
of the stable descending sorts below. -/
def descSnd {α β : Type} [LE β] (x y : α × β) : Prop := y.2 ≤ x.2

instance {α β : Type} [LE β] [DecidableRel (α := β) (· ≤ ·)] :
    DecidableRel (descSnd (α := α) (β := β)) :=
  fun x y => inferInstanceAs (Decidable (y.2 ≤ x.2))

instance {α β : Type} [LinearOrder β] : IsTotal (α × β) descSnd :=
  ⟨fun a b => le_total b.2 a.2⟩

instance {α β : Type} [Preorder β] : IsTrans (α × β) descSnd :=
  ⟨fun _ _ _ h1 h2 => le_trans h2 h1⟩

/-- Keep the first occurrence of every element. -/
def dedupFirst {α : Type} [DecidableEq α] : List α → List α → List α
  | [], _ => []
  | a :: t, seen =>
      if a ∈ seen then dedupFirst t seen
      else a :: dedupFirst t (a :: seen)

/-- `offenders_by`: over all results whose details contain the grouping
column, concatenate (group value, rule title) pairs; `DataFrame.value_counts`
then drops the rows containing a null (its default `dropna=True` — the rule
title is never null, so only a null group cell can drop a row), counts each
remaining distinct pair and sorts the counts descending (the relative order
of equal counts is not specified by the source, which sorts with a non-stable
kind; this rendering lists pairs by first occurrence before the descending
sort). -/
def offenders_by (results : List ValidationResult) (group : String) : DataFrame :=
  let frames := results.filterMap (fun res =>
    if res.details.cols.contains group then
      some (res.details.rows.map (fun r => (getCell r group, res.title)))
    else none)
  if frames.isEmpty then DataFrame.empty
  else
    let data := frames.flatten
    let kept := data.filter (fun p => decide (p.1 ≠ Cell.na))
    let counted := (dedupFirst kept []).map (fun p => (p, kept.count p))
    let top := List.insertionSort descSnd counted
    ⟨[group, "regra", "ocorrencias"],
      top.map (fun x =>
        [(group, x.1.1), ("regra", Cell.str x.1.2), ("ocorrencias", Cell.num (x.2 : ℚ))])⟩

/-! ## eda/domain/analysis.py -/

/-- One record of the `detect_outliers` report. -/
structure OutlierRecord where
  coluna : String
  outliers : ℕ
  pct : ℚ
  limiteInferior : ℚ
  limiteSuperior : ℚ
  impactoMedio : ℚ
deriving DecidableEq, Repr

/-- Pandas `Series.quantile(p)` with the default linear interpolation, over
the sorted non-null values (assumed non-empty, as guarded at every call
site). -/
def pdQuantile (sorted : List ℚ) (p : ℚ) : ℚ :=
  let n := sorted.length
  let h : ℚ := p * ((n : ℚ) - 1)
  let i : ℕ := (⌊h⌋).toNat
  let lo := sorted.getD i 0
  let hi := sorted.getD (i + 1) lo
  lo + (h - (i : ℚ)) * (hi - lo)

/-- Mean of a list of rationals (the empty case is never reached by the
guarded call sites). -/
def listMean (l : List ℚ) : ℚ := l.sum / (l.length : ℚ)

/-- Sort rationals ascending. -/
def sortQ (l : List ℚ) : List ℚ :=
  List.insertionSort (fun a b => a ≤ b) l

/-- `detect_outliers`: per numeric column, drop nulls; skip columns with fewer
than 8 values or zero IQR; flag values strictly outside
`[Q1 - 1.5*IQR, Q3 + 1.5*IQR]`; skip columns with no flagged value; report
count, percentage of the non-null values (rounded to 2 decimals), both
bounds, and `mean(series) - mean(unflagged)`.  A column name absent from the
frame contributes an empty series (callers pass existing columns only). -/
def detect_outliers (df : List (String × List (Option ℚ))) (numericCols : List String) :
    List OutlierRecord :=
  numericCols.filterMap (fun col =>
    let series := ((List.lookup col df).getD []).filterMap id
    if series.length < 8 then none
    else
      let sorted := sortQ series
      let q1 := pdQuantile sorted (1/4)
      let q3 := pdQuantile sorted (3/4)
      let iqr := q3 - q1
      if iqr = 0 then none
      else
        let lower := q1 - 3/2 * iqr
        let upper := q3 + 3/2 * iqr
        let isOut : ℚ → Bool := fun v => decide (v < lower) || decide (upper < v)
        let count := series.countP isOut
        if count = 0 then none
        else
          some { coluna := col
                 outliers := count
                 pct := round2 ((count : ℚ) / (series.length : ℚ) * 100)
                 limiteInferior := lower
                 limiteSuperior := upper
                 impactoMedio := listMean series - listMean (series.filter (fun v => !(isOut v))) })

/-- A column as seen by `detect_temporal_patterns`: a datetime64 column
(values already timestamps, `NaT` as `none`), an object column of optional
strings, or a column of any other dtype (never temporal). -/
inductive EdaColumn where
  | datetime (vals : List (Option ℤ)) : EdaColumn
  | obj (cells : List (Option String)) : EdaColumn
  | other (len : ℕ) : EdaColumn
deriving DecidableEq

/-- Number of non-null entries. -/
def countSome {α : Type} (l : List (Option α)) : ℕ :=
  (l.filterMap id).length

/-- The `columns` field of `detect_temporal_patterns`, parametrized by the
`pd.to_datetime` string parser (`parse s = none` when coercion yields `NaT`):
a datetime column is kept when more than 5 entries are non-null; an object
column is parsed element-wise and kept when the parsed-fraction over ALL its
rows exceeds 0.6 and more than 5 entries parse; other dtypes are never kept.
The trend-insight loop of the source reads, but never modifies, this list. -/
def detectTemporalColumns (parse : String → Option ℤ)
    (cols : List (String × EdaColumn)) : List String :=
  cols.filterMap (fun nc =>
    match nc.2 with
    | .datetime vals => if 5 < countSome vals then some nc.1 else none
    | .obj cells =>
        let parsed := cells.map (fun c => c.bind parse)
        if (3/5 : ℚ) * (cells.length : ℚ) < (countSome parsed : ℚ) ∧ 5 < countSome parsed
        then some nc.1 else none
    | .other _ => none)

/-- Unordered column pairs in the nested-loop order of
`summarize_relationships` (`i < j` over the column list). -/
def upperPairs {α : Type} : List α → List (α × α)
  | [] => []
  | a :: t => t.map (fun b => (a, b)) ++ upperPairs t

/-- One reported correlation entry. -/
structure CorrEntry where
  variaveis : String
  correlacao : ℚ
deriving DecidableEq, Repr

/-- The `correlations` field of `summarize_relationships`, parametrized by
the Spearman correlation entries of `df[numeric_cols].corr(method="spearman")`
(`corr a b = none` for a NaN entry): absolute values of all upper-triangle
pairs, sorted descending (stable, as `list.sort` is), truncated to 5, and
kept when at least 0.2 — the threshold reads the unrounded value, rounding to
3 decimals happens only in the rendered entry. -/
def summarizeCorrelations (corr : String → String → Option ℚ)
    (numericCols : List String) : List CorrEntry :=
  if numericCols.isEmpty then []
  else
    let corrPairs := (upperPairs numericCols).filterMap (fun ab =>
      (corr ab.1 ab.2).map (fun v => (ab, |v|)))
    let sorted := List.insertionSort descSnd corrPairs
    ((sorted.take 5).filter (fun x => decide ((1/5 : ℚ) ≤ x.2))).map (fun x =>
      { variaveis := x.1.1 ++ " ~ " ++ x.1.2, correlacao := round3 x.2 })

/-! ## Claim-side (specification) definitions

These re-state what the specification's sentences say, independently of the
embedding above, for the refinement-style theorems that compare the two. -/

/-- Spec side of C1: some mandatory column is absent from the dataset, after
accepting `valor_nota_fiscal` in place of `valor_total_nota`. -/
def mandatoryAbsent (df : DataFrame) : Prop :=
  ∃ c ∈ MANDATORY_COLUMNS, c ∉ df.cols
    ∧ ¬(c = "valor_total_nota" ∧ "valor_nota_fiscal" ∈ df.cols)

/-- Spec side of C5: the flagged rows of all rules whose details table has
the grouping column, each contributing one (group value, rule title) pair. -/
def flaggedPairs (results : List ValidationResult) (group : String) : List (Cell × String) :=
  (results.filter (fun res => res.details.cols.contains group)).flatMap
    (fun res => res.details.rows.map (fun r => (getCell r group, res.title)))

/-- Spec side of C5, continued: the flagged pairs whose group value is not
null — `DataFrame.value_counts` drops rows containing NA before counting. -/
def nonNullFlaggedPairs (results : List ValidationResult) (group : String) :
    List (Cell × String) :=
  (flaggedPairs results group).filter (fun p => decide (p.1 ≠ Cell.na))

/-- Spec side of C7: the expected CFOP leading digit for a destination code
("1" to "5", "2" to "6", "3" to "7"). -/
def expectedCfopDigit (d : String) : Option String :=
  if d = "1" then some "5" else if d = "2" then some "6"
  else if d = "3" then some "7" else none

/-- Spec side of C7: a row is a CFOP/destination mismatch when its
destination code is recognized and the CFOP's first digit differs from the
expected one; rows with an absent or unrecognized destination never are. -/
def cfopSpecFlag (r : Row) : Bool :=
  match strExtractOneDigit (getCell r "destino_operacao") with
  | none => false
  | some d =>
    match expectedCfopDigit d with
    | none => false
    | some p => (extractDigitRun (Cell.pyStr (getCell r "cfop"))).map (fun s => s.take 1) ≠ some p

/-- The output row `_detect_item_total_mismatch` emits for a flagged row. -/
def itemIssueRow (r : Row) (q vu vti : ℚ) : Row :=
  let esperado := round2 (q * vu)
  projectRow r ["chave_acesso", "numero", "numero_item", "descricao_item"]
    ++ [("quantidade", Cell.num q), ("valor_unitario", Cell.num vu),
        ("valor_total_item", Cell.num vti), ("esperado", Cell.num esperado),
        ("diferenca", Cell.num (round2 (vti - esperado)))]

/-- The numeric value of column `c` of a row, when it parses, lies on the
cent grid (an integral number of hundredths — every currency amount does). -/
def centGridOn (r : Row) (c : String) : Bool :=
  match (getCell r c).toNum with
  | some v => (100 * v).den == 1
  | none => true

/-- A cell holding a number or a null (numeric dtype). -/
def isNumOrNa : Cell → Bool
  | .na => true
  | .num _ => true
  | _ => false

/-- Numeric value of a cell, a null (or non-numeric) contributing 0 — how a
skipped-null pandas sum sees each cell. -/
def cellNumOr0 : Cell → ℚ
  | .num q => q
  | _ => 0

/-- Spec side of C4/C10: the per-document item sum — `valor_total_item` over
the rows of the (`chave_acesso`, `numero`) group, nulls contributing 0. -/
def somaSpec (df : DataFrame) (k : Cell × Cell) : ℚ :=
  ((df.rows.filter (fun r => notaKey r = k)).map (fun r =>
    cellNumOr0 (getCell r "valor_total_item"))).sum

/-- The output row `_detect_nota_total_mismatch` emits for a flagged
document. -/
def notaIssueRow (notaCol : String) (r : Row) (tot soma : ℚ) : Row :=
  [("chave_acesso", getCell r "chave_acesso"),
   ("numero", getCell r "numero"),
   (notaCol, Cell.num tot),
   ("soma_itens", Cell.num soma),
   ("diferenca", Cell.num (round2 (tot - soma)))]

/-- Spec side of C6: the outlier report rebuilt from the specification's own
wording — at least 8 non-null values, strictly positive IQR, flagged values
exactly those strictly outside the whisker bounds, columns with no flagged
value omitted. -/
def outlierSpecRecord (df : List (String × List (Option ℚ))) (col : String) :
    Option OutlierRecord :=
  let series := ((List.lookup col df).getD []).filterMap id
  let sorted := sortQ series
  let q1 := pdQuantile sorted (1/4)
  let q3 := pdQuantile sorted (3/4)
  let iqr := q3 - q1
  let lower := q1 - 3/2 * iqr
  let upper := q3 + 3/2 * iqr
  let flagged := series.filter (fun v => decide (v < lower) || decide (upper < v))
  if 8 ≤ series.length ∧ 0 < iqr ∧ flagged ≠ [] then
    some { coluna := col
           outliers := flagged.length
           pct := round2 ((flagged.length : ℚ) / (series.length : ℚ) * 100)
           limiteInferior := lower
           limiteSuperior := upper
           impactoMedio := listMean series
             - listMean (series.filter (fun v => !(decide (v < lower) || decide (upper < v)))) }
  else none

/-- Spec side of C8: qualifying as a temporal column, per the amended claim —
datetime columns need more than 5 non-null values; object columns need more
than 5 parsed values and a parsed fraction above 0.6 of all rows. -/
def temporalQualifies (parse : String → Option ℤ) : EdaColumn → Prop
  | .datetime vals => 5 < countSome vals
  | .obj cells =>
      (3/5 : ℚ) * (cells.length : ℚ) < (countSome (cells.map (fun c => c.bind parse)) : ℚ)
        ∧ 5 < countSome (cells.map (fun c => c.bind parse))
  | .other _ => False

/-! ## Concrete fixtures -/

/-- A row of a full fiscal line-item table. -/
def fullRow (chave numero item cfop dest : String) (q vu vti total : Cell) : Row :=
  [("chave_acesso", .str chave), ("numero", .str numero), ("numero_item", .str item),
   ("cfop", .str cfop), ("ncm", .str "12345678"), ("destino_operacao", .str dest),
   ("quantidade", q), ("valor_unitario", vu), ("valor_total_item", vti),
   ("valor_total_nota", total), ("descricao_item", .str "item")]

/-- Column list of the full fiscal fixtures. -/
def fullCols : List String :=
  ["chave_acesso", "numero", "numero_item", "cfop", "ncm", "destino_operacao",
   "quantidade", "valor_unitario", "valor_total_item", "valor_total_nota", "descricao_item"]

/-- C2 fixture: a single row whose NCM is the 8-digit string "12345670". -/
def ncmDf : DataFrame :=
  ⟨["chave_acesso", "numero", "numero_item", "ncm", "descricao_item"],
   [[("chave_acesso", .str "K1"), ("numero", .str "1"), ("numero_item", .str "1"),
     ("ncm", .str "12345670"), ("descricao_item", .str "item")]]⟩

/-- C3 fixture: items at the two sides of the tolerance boundary — expected
total 10.00, reported 11.00 (difference exactly 1.00) and 11.01. -/
def itemBoundaryDf : DataFrame :=
  ⟨fullCols,
   [fullRow "K1" "1" "1" "5102" "1" (.num 2) (.num 5) (.num 11) (.num 0),
    fullRow "K1" "1" "2" "5102" "1" (.num 2) (.num 5) (.num (1101/100)) (.num 0)]⟩

/-- The details table `_detect_item_total_mismatch` produces on
`itemBoundaryDf`: only the +1.01 row. -/
def itemBoundaryOut : DataFrame :=
  ⟨["chave_acesso", "numero", "numero_item", "descricao_item", "quantidade",
    "valor_unitario", "valor_total_item", "esperado", "diferenca"],
   [itemIssueRow (fullRow "K1" "1" "2" "5102" "1" (.num 2) (.num 5) (.num (1101/100)) (.num 0))
      2 5 (1101/100)]⟩

/-- C7 fixture: destination "1" with CFOP "5102" (compatible) and destination
"1" with CFOP "6108" (mismatch). -/
def cfopExampleDf : DataFrame :=
  ⟨fullCols,
   [fullRow "K1" "1" "1" "5102" "1 - operacao interna" (.num 1) (.num 1) (.num 1) (.num 1),
    fullRow "K1" "1" "2" "6108" "1 - operacao interna" (.num 1) (.num 1) (.num 1) (.num 1)]⟩

/-- The details table `_detect_cfop_mismatch` produces on `cfopExampleDf`:
only the "6108" row, with expected family ("5",). -/
def cfopExampleOut : DataFrame :=
  ⟨["chave_acesso", "numero", "numero_item", "cfop", "destino_operacao",
    "destino_esperado", "valor_total_item"],
   [projectRow (fullRow "K1" "1" "2" "6108" "1 - operacao interna"
        (.num 1) (.num 1) (.num 1) (.num 1))
      ["chave_acesso", "numero", "numero_item", "cfop", "destino_operacao"]
    ++ [("destino_esperado", Cell.strs ["5"])]
    ++ projectRow (fullRow "K1" "1" "2" "6108" "1 - operacao interna"
        (.num 1) (.num 1) (.num 1) (.num 1))
      ["valor_total_item"]]⟩

/-- C4 fixture: document (K1, 1) sums to 150.00 with a declared total of
200.00; documents (K2, 2) and (K3, 3) are consistent. -/
def notaExampleDf : DataFrame :=
  ⟨fullCols,
   [fullRow "K1" "1" "1" "5102" "1" (.num 1) (.num 100) (.num 100) (.num 200),
    fullRow "K1" "1" "2" "5102" "1" (.num 1) (.num 50) (.num 50) (.num 200),
    fullRow "K2" "2" "1" "5102" "1" (.num 1) (.num 30) (.num 30) (.num 30),
    fullRow "K3" "3" "1" "5102" "1" (.num 1) (.num 40) (.num 40) (.num 40)]⟩

/-- C10 fixture: document (K1, 1) has both item values missing and a declared
total of 10.00; document (K2, 2) is consistent. -/
def notaMissingDf : DataFrame :=
  ⟨fullCols,
   [fullRow "K1" "1" "1" "5102" "1" (.num 1) (.num 1) Cell.na (.num 10),
    fullRow "K1" "1" "2" "5102" "1" (.num 1) (.num 1) Cell.na (.num 10),
    fullRow "K2" "2" "1" "5102" "1" (.num 1) (.num 30) (.num 30) (.num 30)]⟩

/-- C1 witness fixture: a dataset lacking `ncm` (and much else). -/
def missingNcmDf : DataFrame :=
  ⟨["chave_acesso", "numero", "numero_item", "cfop", "quantidade",
    "valor_unitario", "valor_total_item", "valor_total_nota"], []⟩

/-- C5 fixture: rule A flags issuer "ACME LTDA" once. -/
def ruleA : ValidationResult :=
  ⟨"r1", "Rule A", "alta", "c", ⟨["emitente"], [[("emitente", .str "ACME LTDA")]]⟩⟩

/-- C5 fixture: rule B flags issuers "ACME LTDA" and "BETA SA" once each. -/
def ruleB : ValidationResult :=
  ⟨"r2", "Rule B", "alta", "c",
   ⟨["emitente"], [[("emitente", .str "ACME LTDA")], [("emitente", .str "BETA SA")]]⟩⟩

/-- C8 fixture: `pd.to_datetime` behaviour on the fixture's cells — the seven
ISO dates 2024-01-01 .. 2024-01-07 parse to their proleptic-Gregorian
ordinals, everything else in the fixture coerces to `NaT`. -/
def parseIso7 (s : String) : Option ℤ :=
  List.lookup s
    [("2024-01-01", 738886), ("2024-01-02", 738887), ("2024-01-03", 738888),
     ("2024-01-04", 738889), ("2024-01-05", 738890), ("2024-01-06", 738891),
     ("2024-01-07", 738892)]

/-- C8 fixture: exactly 7 parseable date strings. -/
def sevenDatesCells : List (Option String) :=
  [some "2024-01-01", some "2024-01-02", some "2024-01-03", some "2024-01-04",
   some "2024-01-05", some "2024-01-06", some "2024-01-07"]

/-- C8 fixture: an object column of exactly 7 parseable date strings. -/
def sevenDatesCol : EdaColumn := .obj sevenDatesCells

/-- C9 fixture: a Spearman matrix with |rho| = 0.21 for (a, b) and 0.19 for
(a, c); the remaining pair is undefined (NaN). -/
def corrExample (a b : String) : Option ℚ :=
  if a = "a" ∧ b = "b" then some (21/100)
  else if a = "a" ∧ b = "c" then some (19/100)
  else none

/-- The details table `_detect_nota_total_mismatch` produces on
`notaExampleDf`: one row for document (K1, 1), difference 50.00. -/
def notaExampleOut : DataFrame :=
  ⟨["chave_acesso", "numero", "valor_total_nota", "soma_itens", "diferenca"],
   [notaIssueRow "valor_total_nota"
      (projectRow (fullRow "K1" "1" "1" "5102" "1" (.num 1) (.num 100) (.num 100) (.num 200))
        ["chave_acesso", "numero", "valor_total_item", "valor_total_nota"]) 200 150]⟩

/-- The details table `_detect_nota_total_mismatch` produces on
`notaMissingDf`: one row for document (K1, 1), item sum 0. -/
def notaMissingOut : DataFrame :=
  ⟨["chave_acesso", "numero", "valor_total_nota", "soma_itens", "diferenca"],
   [notaIssueRow "valor_total_nota"
      (projectRow (fullRow "K1" "1" "1" "5102" "1" (.num 1) (.num 1) Cell.na (.num 10))
        ["chave_acesso", "numero", "valor_total_item", "valor_total_nota"]) 10 0]⟩

/-! ## Theorems -/

section Theorems

attribute [local semireducible] Rat.add Rat.mul Rat.sub Rat.inv

/-- C2: the specification says an NCM that is already exactly 8 digits — such
as "12345670", which ends in the digit 0 — is never flagged, only a trailing
LITERAL ".0" being stripped before the 8-digit check.  The code's regex
`".0$"` has an unescaped dot, so it strips any final character followed by
`'0'`: "12345670" becomes the 6-digit "123456" and the row IS flagged, even
though the raw code fullmatches eight digits — contradicting both the claim
and the rule's own conclusion text («devem possuir oito dígitos»).  This
theorem evaluates the embedded rule at that failing input. -/
theorem ncm_rule_flags_valid_eight_digit_code :
    detectInvalidNcm ncmDf = .ok ncmDf
    ∧ pySubDot0End "12345670" = "123456"
    ∧ fullmatch8Digits "12345670" = true := by
  refine ⟨rfl, rfl, rfl⟩

/-- C5 counterexample: with rule A flagging issuer "ACME LTDA" once and rule
B flagging "ACME LTDA" and "BETA SA" once each, the claim says `offenders_by`
returns a SINGLE row for ACME with count 2 ranking above BETA's count 1.  In
fact `DataFrame.value_counts` counts distinct (value, rule-title) pairs: the
output has three rows, ACME appears in two of them, and every row's
`ocorrencias` is 1 — no row carries a count of 2. -/
theorem offenders_by_single_row_per_value_cex :
    (offenders_by [ruleA, ruleB] "emitente").rows.countP
      (fun r => getCell r "emitente" = Cell.str "ACME LTDA") = 2
    ∧ (offenders_by [ruleA, ruleB] "emitente").rows.countP
      (fun r => getCell r "ocorrencias" = Cell.num 2) = 0
    ∧ (offenders_by [ruleA, ruleB] "emitente").rows.length = 3 := by
  refine ⟨by decide, by decide, by decide⟩

/-- C8 counterexample: the claim says a column with between 6 and 9
successfully parsed rows does not qualify as temporal.  An object column of
exactly 7 parseable ISO dates does appear in the `columns` output — the gate
on that output is `parsed.notna().sum() > 5`; the `>= 10` check only gates
the trend-insight loop. -/
theorem temporal_columns_seven_parsed_cex :
    detectTemporalColumns parseIso7 [("data", sevenDatesCol)] = ["data"]
    ∧ countSome (sevenDatesCells.map (fun c => c.bind parseIso7)) = 7 := by
  refine ⟨by decide, by decide⟩

/-- On a list sorted descending by `key`, filtering by a lower threshold
commutes with truncation. -/
theorem filter_take_of_sorted_desc {α : Type} (key : α → ℚ) (c : ℚ) :
    ∀ (l : List α), List.Pairwise (fun a b => key b ≤ key a) l →
      ∀ n : ℕ, (l.take n).filter (fun x => decide (c ≤ key x))
        = (l.filter (fun x => decide (c ≤ key x))).take n := by
  intro l
  induction l with
  | nil => intro _ n; simp
  | cons a t ih =>
      intro hl n
      rw [List.pairwise_cons] at hl
      obtain ⟨ha, ht⟩ := hl
      cases n with
      | zero => simp
      | succ m =>
          simp only [List.take_succ_cons, List.filter_cons]
          by_cases hc : (c ≤ key a)
          · simp only [hc, decide_True, if_true, List.take_succ_cons]
            rw [ih ht m]
          · have h1 : t.filter (fun x => decide (c ≤ key x)) = [] := by
              rw [List.filter_eq_nil_iff]
              intro x hx
              simp only [decide_eq_true_eq]
              exact fun hcx => hc (le_trans hcx (ha x hx))
            have h2 : (t.take m).filter (fun x => decide (c ≤ key x)) = [] := by
              rw [List.filter_eq_nil_iff]
              intro x hx
              simp only [decide_eq_true_eq]
              exact fun hcx => hc (le_trans hcx (ha x (List.take_subset m t hx)))
            simp [hc, h1, h2]

/-- C9: `summarize_relationships` reports, among all unordered numeric column
pairs with a defined Spearman entry, exactly those whose absolute correlation
is at least 0.2 — the threshold applied to the unrounded value — sorted
descending and truncated to at most 5 entries; concretely, |rho| = 0.21 is
reported and |rho| = 0.19 is not. -/
theorem summarize_relationships_threshold :
    (∀ (corr : String → String → Option ℚ) (numericCols : List String),
      summarizeCorrelations corr numericCols
        = (((List.insertionSort descSnd
              ((upperPairs numericCols).filterMap (fun ab : String × String =>
                (corr ab.1 ab.2).map (fun v => (ab, |v|))))).filter
            (fun x => decide ((1/5 : ℚ) ≤ x.2))).take 5).map
          (fun x : (String × String) × ℚ =>
            CorrEntry.mk (x.1.1 ++ " ~ " ++ x.1.2) (round3 x.2)))
    ∧ summarizeCorrelations corrExample ["a", "b", "c"]
      = [{ variaveis := "a ~ b", correlacao := 21/100 }] := by
  constructor
  · intro corr numericCols
    unfold summarizeCorrelations
    by_cases h : numericCols.isEmpty
    · rw [List.isEmpty_iff] at h
      subst h
      simp [upperPairs]
    · rw [if_neg h]
      dsimp only
      congr 1
      have hs : List.Pairwise (fun a b : (String × String) × ℚ => b.2 ≤ a.2)
          (List.insertionSort descSnd
            ((upperPairs numericCols).filterMap (fun ab : String × String =>
              (corr ab.1 ab.2).map (fun v => (ab, |v|))))) :=
        List.sorted_insertionSort descSnd _
      exact filter_take_of_sorted_desc (fun x : (String × String) × ℚ => x.2)
        (1/5) _ hs 5
  · decide

/-- Two entries of an association list with duplicate-free keys and the same
key are the same entry. -/
theorem eq_of_fst_eq_of_nodup_keys {α β : Type} {l : List (α × β)}
    (h : (l.map Prod.fst).Nodup) {p q : α × β}
    (hp : p ∈ l) (hq : q ∈ l) (he : p.1 = q.1) : p = q := by
  induction l with
  | nil => cases hp
  | cons a t ih =>
      rw [List.map_cons, List.nodup_cons] at h
      obtain ⟨hnotin, hnd⟩ := h
      rcases List.mem_cons.1 hp with rfl | hp'
      · rcases List.mem_cons.1 hq with rfl | hq'
        · rfl
        · exact absurd (he ▸ List.mem_map_of_mem Prod.fst hq') hnotin
      · rcases List.mem_cons.1 hq with rfl | hq'
        · exact absurd (he ▸ List.mem_map_of_mem Prod.fst hp') hnotin
        · exact ih hnd hp' hq'

/-- C8 (amended): a column appears in the `columns` output of
`detect_temporal_patterns` iff it qualifies per `temporalQualifies` — for an
object column, more than 5 values parse as dates AND the parsed fraction over
all rows exceeds 0.6; in particular 6 to 9 parsed rows do qualify, the >= 10
threshold gating only the trend insights. -/
theorem temporal_columns_membership (parse : String → Option ℤ)
    (cols : List (String × EdaColumn)) (name : String) (col : EdaColumn)
    (hnd : (cols.map Prod.fst).Nodup) (hmem : (name, col) ∈ cols) :
    name ∈ detectTemporalColumns parse cols ↔ temporalQualifies parse col := by
  unfold detectTemporalColumns
  rw [List.mem_filterMap]
  constructor
  · rintro ⟨nc, hnc, hf⟩
    have hq : name = nc.1 ∧ temporalQualifies parse nc.2 := by
      rcases nc with ⟨n', c'⟩
      cases c' with
      | datetime vals =>
          simp only [temporalQualifies] at hf ⊢
          split at hf
          · exact ⟨(Option.some.inj hf).symm, by assumption⟩
          · cases hf
      | obj cells =>
          simp only [temporalQualifies] at hf ⊢
          split at hf
          · exact ⟨(Option.some.inj hf).symm, by assumption⟩
          · cases hf
      | other len => cases hf
    obtain ⟨rfl, hq2⟩ := hq
    have : (nc.1, col) = nc := eq_of_fst_eq_of_nodup_keys hnd (by simpa using hmem) hnc rfl
    rw [show col = nc.2 from (congrArg Prod.snd this.symm).symm]
    exact hq2
  · intro hq
    refine ⟨(name, col), hmem, ?_⟩
    cases col with
    | datetime vals =>
        simp only [temporalQualifies] at hq
        simp only [if_pos hq]
    | obj cells =>
        simp only [temporalQualifies] at hq
        simp only [if_pos hq]
    | other len => cases hq

/-- Closed instance of `temporal_columns_membership` at the seven-ISO-dates
fixture. -/
theorem temporal_columns_membership_witness :
    ([("data", sevenDatesCol)].map Prod.fst).Nodup
    ∧ ("data", sevenDatesCol) ∈ [("data", sevenDatesCol)]
    ∧ ("data" ∈ detectTemporalColumns parseIso7 [("data", sevenDatesCol)]
        ↔ temporalQualifies parseIso7 sevenDatesCol) :=
  ⟨by decide, by decide,
   temporal_columns_membership parseIso7 [("data", sevenDatesCol)] "data" sevenDatesCol
     (by decide) (by decide)⟩

/-- Membership in `dedupFirst`. -/
theorem mem_dedupFirst {α : Type} [DecidableEq α] (a : α) :
    ∀ (l seen : List α), a ∈ dedupFirst l seen ↔ a ∈ l ∧ a ∉ seen := by
  intro l
  induction l with
  | nil => intro seen; simp [dedupFirst]
  | cons b t ih =>
      intro seen
      by_cases hb : b ∈ seen
      · rw [show dedupFirst (b :: t) seen = dedupFirst t seen by
          simp only [dedupFirst, if_pos hb]]
        rw [ih]
        constructor
        · rintro ⟨h1, h2⟩
          exact ⟨List.mem_cons_of_mem _ h1, h2⟩
        · rintro ⟨h1, h2⟩
          rcases List.mem_cons.1 h1 with rfl | h1'
          · exact absurd hb h2
          · exact ⟨h1', h2⟩
      · rw [show dedupFirst (b :: t) seen = b :: dedupFirst t (b :: seen) by
          simp only [dedupFirst, if_neg hb]]
        constructor
        · intro h
          rcases List.mem_cons.1 h with rfl | h'
          · exact ⟨List.mem_cons_self _ _, hb⟩
          · have h2 := (ih (b :: seen)).1 h'
            exact ⟨List.mem_cons_of_mem _ h2.1,
              fun hs => h2.2 (List.mem_cons_of_mem _ hs)⟩
        · rintro ⟨h1, h2⟩
          rcases List.mem_cons.1 h1 with rfl | h1'
          · exact List.mem_cons_self _ _
          · by_cases hab : a = b
            · subst hab
              exact List.mem_cons_self _ _
            · refine List.mem_cons_of_mem _ ((ih (b :: seen)).2 ⟨h1', fun hs => ?_⟩)
              exact (List.mem_cons.1 hs).elim hab h2

/-- `dedupFirst` yields duplicate-free lists. -/
theorem nodup_dedupFirst {α : Type} [DecidableEq α] :
    ∀ (l seen : List α), (dedupFirst l seen).Nodup := by
  intro l
  induction l with
  | nil => intro seen; simp [dedupFirst]
  | cons b t ih =>
      intro seen
      by_cases hb : b ∈ seen
      · rw [show dedupFirst (b :: t) seen = dedupFirst t seen by
          simp only [dedupFirst, if_pos hb]]
        exact ih seen
      · rw [show dedupFirst (b :: t) seen = b :: dedupFirst t (b :: seen) by
          simp only [dedupFirst, if_neg hb]]
        rw [List.nodup_cons]
        refine ⟨fun hmem => ?_, ih _⟩
        exact ((mem_dedupFirst b t (b :: seen)).1 hmem).2 (List.mem_cons_self _ _)

/-- The frames gathered by `offenders_by` flatten to the specification's
(value, rule-title) pair list. -/
theorem flatten_frames_eq_flaggedPairs (results : List ValidationResult) (group : String) :
    (results.filterMap (fun res =>
      if res.details.cols.contains group then
        some (res.details.rows.map (fun r => (getCell r group, res.title)))
      else none)).flatten = flaggedPairs results group := by
  induction results with
  | nil => simp [flaggedPairs]
  | cons res rest ih =>
      by_cases h : res.details.cols.contains group
      · simp only [flaggedPairs, List.filterMap_cons, List.filter_cons, h, if_pos,
          List.flatten_cons, List.flatMap_cons] at ih ⊢
        rw [ih]
      · simp only [flaggedPairs, List.filterMap_cons, List.filter_cons, h,
          Bool.false_eq_true, if_false] at ih ⊢
        exact ih

/-- C5 (amended): `offenders_by` counts, for each distinct (group value, rule
title) PAIR with a non-null group value, the number of flagged rows of that
rule carrying that value: its output has one row per such pair holding that
count, never shows a null group value (`value_counts` drops NA rows), is
sorted by count descending, and never merges two rules' counts for the same
value into one row. -/
theorem offenders_by_counts_pairs (results : List ValidationResult) (group : String)
    (hg1 : group ≠ "regra") (hg2 : group ≠ "ocorrencias") :
    (∀ (v : Cell) (t : String) (n : ℕ),
        [(group, v), ("regra", Cell.str t), ("ocorrencias", Cell.num (n : ℚ))]
            ∈ (offenders_by results group).rows
          ↔ (v ≠ Cell.na ∧ (v, t) ∈ flaggedPairs results group
              ∧ n = (nonNullFlaggedPairs results group).count (v, t)))
    ∧ List.Pairwise (fun r s =>
        ∃ p q : ℚ, getCell r "ocorrencias" = Cell.num p
          ∧ getCell s "ocorrencias" = Cell.num q ∧ q ≤ p)
        (offenders_by results group).rows
    ∧ ((offenders_by results group).rows.map
        (fun r => (getCell r group, getCell r "regra"))).Nodup := by
  have hdata := flatten_frames_eq_flaggedPairs results group
  unfold offenders_by nonNullFlaggedPairs
  dsimp only
  by_cases hE : (results.filterMap (fun res =>
      if res.details.cols.contains group then
        some (res.details.rows.map (fun r => (getCell r group, res.title)))
      else none)).isEmpty
  · rw [if_pos hE]
    have hfp : flaggedPairs results group = [] := by
      rw [List.isEmpty_iff] at hE
      rw [← hdata, hE]
      rfl
    refine ⟨?_, ?_, ?_⟩ <;> simp [DataFrame.empty, hfp]
  · rw [if_neg hE]
    rw [hdata]
    dsimp only
    set P := (flaggedPairs results group).filter (fun p => decide (p.1 ≠ Cell.na)) with hP
    set counted := (dedupFirst P []).map (fun p => (p, P.count p)) with hcounted
    set top := List.insertionSort descSnd counted with htop
    have hperm : top.Perm counted := List.perm_insertionSort descSnd counted
    have hocc : ∀ (x : (Cell × String) × ℕ),
        getCell [(group, x.1.1), ("regra", Cell.str x.1.2),
          ("ocorrencias", Cell.num (x.2 : ℚ))] "ocorrencias" = Cell.num (x.2 : ℚ) := by
      intro x
      have e1 : ("ocorrencias" == group) = false :=
        beq_eq_false_iff_ne.2 (Ne.symm hg2)
      have e2 : ("ocorrencias" == "regra") = false := by decide
      simp [getCell, List.lookup, e1, e2]
    refine ⟨?_, ?_, ?_⟩
    · intro v t n
      rw [List.mem_map]
      constructor
      · rintro ⟨a, ha, heq⟩
        simp only [List.cons.injEq, Prod.mk.injEq, Cell.str.injEq, Cell.num.injEq,
          Nat.cast_inj, and_true, true_and, eq_self_iff_true] at heq
        obtain ⟨hv, ht', hn'⟩ := heq
        have hmemc : a ∈ counted := hperm.mem_iff.1 ha
        rw [hcounted, List.mem_map] at hmemc
        obtain ⟨p, hpmem, hpa⟩ := hmemc
        have hp1 : p = (v, t) := by
          have : p = a.1 := congrArg Prod.fst hpa
          rw [this, Prod.ext_iff]
          exact ⟨hv, ht'⟩
        have hcount : P.count p = n := by
          have : P.count p = a.2 := congrArg Prod.snd hpa
          rw [this, hn']
        have hmemP : p ∈ P := ((mem_dedupFirst p P []).1 hpmem).1
        subst hp1
        rw [hP, List.mem_filter] at hmemP
        have hne := hmemP.2
        simp only [decide_eq_true_eq] at hne
        exact ⟨hne, hmemP.1, hcount.symm⟩
      · rintro ⟨hne, hmem, hcount⟩
        refine ⟨((v, t), P.count (v, t)), ?_, ?_⟩
        · apply hperm.mem_iff.2
          rw [hcounted]
          refine List.mem_map_of_mem _
            ((mem_dedupFirst (v, t) P []).2 ⟨?_, List.not_mem_nil _⟩)
          rw [hP, List.mem_filter]
          exact ⟨hmem, by simp [hne]⟩
        · rw [← hcount]
    · have hsorted : List.Pairwise descSnd top := List.sorted_insertionSort descSnd counted
      rw [List.pairwise_map]
      refine hsorted.imp ?_
      intro a b hab
      exact ⟨(a.2 : ℚ), (b.2 : ℚ), hocc a, hocc b, by exact_mod_cast hab⟩
    · have hgv : ∀ (x : (Cell × String) × ℕ),
          getCell [(group, x.1.1), ("regra", Cell.str x.1.2),
            ("ocorrencias", Cell.num (x.2 : ℚ))] group = x.1.1 := by
        intro x
        have e1 : (group == group) = true := beq_self_eq_true group
        simp [getCell, List.lookup, e1]
      have hgr : ∀ (x : (Cell × String) × ℕ),
          getCell [(group, x.1.1), ("regra", Cell.str x.1.2),
            ("ocorrencias", Cell.num (x.2 : ℚ))] "regra" = Cell.str x.1.2 := by
        intro x
        have e1 : ("regra" == group) = false := beq_eq_false_iff_ne.2 (Ne.symm hg1)
        have e2 : ("regra" == "regra") = true := by decide
        simp [getCell, List.lookup, e1, e2]
      rw [List.map_map]
      have hfun : ((fun r => (getCell r group, getCell r "regra")) ∘
          (fun x : (Cell × String) × ℕ => [(group, x.1.1), ("regra", Cell.str x.1.2),
            ("ocorrencias", Cell.num (x.2 : ℚ))]))
          = fun x : (Cell × String) × ℕ => (x.1.1, Cell.str x.1.2) := by
        funext x
        simp only [Function.comp_apply, hgv x, hgr x]
      rw [hfun]
      rw [(hperm.map _).nodup_iff]
      rw [hcounted, List.map_map]
      have hfun2 : ((fun x : (Cell × String) × ℕ => (x.1.1, Cell.str x.1.2)) ∘
          (fun p : Cell × String => (p, P.count p)))
          = fun p : Cell × String => (p.1, Cell.str p.2) := by
        funext p
        rfl
      rw [hfun2]
      refine List.Nodup.map ?_ (nodup_dedupFirst P [])
      intro p q hpq
      simp only [Prod.mk.injEq, Cell.str.injEq] at hpq
      exact Prod.ext hpq.1 hpq.2

/-- Closed instance of `offenders_by_counts_pairs` at the two-rule ACME/BETA
fixture. -/
theorem offenders_by_counts_pairs_witness :
    ("emitente" : String) ≠ "regra"
    ∧ List.Pairwise (fun r s =>
        ∃ p q : ℚ, getCell r "ocorrencias" = Cell.num p
          ∧ getCell s "ocorrencias" = Cell.num q ∧ q ≤ p)
        (offenders_by [ruleA, ruleB] "emitente").rows
    ∧ ((offenders_by [ruleA, ruleB] "emitente").rows.map
        (fun r => (getCell r "emitente", getCell r "regra"))).Nodup :=
  ⟨by decide,
   (offenders_by_counts_pairs [ruleA, ruleB] "emitente" (by decide) (by decide)).2.1,
   (offenders_by_counts_pairs [ruleA, ruleB] "emitente" (by decide) (by decide)).2.2⟩
/-- Per-column characterization of `missingColumns`. -/
theorem mem_missingColumns (df : DataFrame) (c : String) :
    c ∈ missingColumns df
      ↔ (c ∈ MANDATORY_COLUMNS ∧ c ∉ df.cols
          ∧ ¬(c = "valor_total_nota" ∧ "valor_nota_fiscal" ∈ df.cols)) := by
  have hnd : (MANDATORY_COLUMNS.filter (fun c => !(df.cols.contains c))).Nodup :=
    List.Nodup.filter _ (by decide)
  have hfil : ∀ x, x ∈ MANDATORY_COLUMNS.filter (fun c => !(df.cols.contains c))
      ↔ (x ∈ MANDATORY_COLUMNS ∧ x ∉ df.cols) := by
    intro x
    rw [List.mem_filter]
    simp [List.elem_iff]
  unfold missingColumns
  by_cases hf : (MANDATORY_COLUMNS.filter (fun c => !(df.cols.contains c))).contains
      "valor_total_nota" && df.cols.contains "valor_nota_fiscal"
  · rw [if_pos hf]
    rw [Bool.and_eq_true] at hf
    have hvnf : "valor_nota_fiscal" ∈ df.cols := by
      have := hf.2
      rwa [List.elem_iff] at this
    rw [hnd.mem_erase_iff, hfil]
    constructor
    · rintro ⟨hne, hmand, habs⟩
      exact ⟨hmand, habs, fun hand => hne hand.1⟩
    · rintro ⟨hmand, habs, hnand⟩
      exact ⟨fun he => hnand ⟨he, hvnf⟩, hmand, habs⟩
  · rw [if_neg hf]
    rw [hfil]
    constructor
    · rintro ⟨hmand, habs⟩
      refine ⟨hmand, habs, fun hand => ?_⟩
      apply hf
      rw [Bool.and_eq_true, List.elem_iff, List.elem_iff]
      exact ⟨(hfil "valor_total_nota").2 ⟨by decide, hand.1 ▸ habs⟩, hand.2⟩
    · rintro ⟨hmand, habs, _⟩
      exact ⟨hmand, habs⟩

/-- C1: `run_core_validations` raises its precondition `ValueError` — and so
yields no results — exactly when some mandatory column is still absent after
accepting `valor_nota_fiscal` for `valor_total_nota`; in particular a dataset
lacking `ncm` always raises instead of skipping the NCM rule. -/
theorem run_core_validations_precondition (df : DataFrame) :
    ((∃ m, run_core_validations df = .error (.precondition m)) ↔ mandatoryAbsent df)
    ∧ ("ncm" ∉ df.cols → ∃ m, run_core_validations df = .error (.precondition m)) := by
  have hex : missingColumns df ≠ [] ↔ ∃ c, c ∈ missingColumns df := by
    constructor
    · intro h
      cases hm : missingColumns df with
      | nil => exact absurd hm h
      | cons a t => exact ⟨a, hm ▸ List.mem_cons_self a t⟩
    · rintro ⟨c, hc⟩ h
      rw [h] at hc
      cases hc
  have hiff : missingColumns df ≠ [] ↔ mandatoryAbsent df := by
    rw [hex]
    unfold mandatoryAbsent
    constructor
    · rintro ⟨c, hc⟩
      have h := (mem_missingColumns df c).1 hc
      exact ⟨c, h.1, h.2.1, h.2.2⟩
    · rintro ⟨c, h1, h2, h3⟩
      exact ⟨c, (mem_missingColumns df c).2 ⟨h1, h2, h3⟩⟩
  have hmain : (∃ m, run_core_validations df = .error (.precondition m))
      ↔ mandatoryAbsent df := by
    rw [← hiff]
    unfold run_core_validations
    by_cases hE : (missingColumns df).isEmpty
    · rw [if_pos hE]
      rw [List.isEmpty_iff] at hE
      constructor
      · rintro ⟨m, hm⟩
        cases hrc : runChecks df with
        | ok checks => rw [hrc] at hm; cases hm
        | error e => rw [hrc] at hm; cases hm
      · intro hne
        exact absurd hE hne
    · rw [if_neg hE]
      rw [List.isEmpty_iff] at hE
      exact ⟨fun _ => hE, fun _ => ⟨_, rfl⟩⟩
  refine ⟨hmain, fun hncm => hmain.2 ?_⟩
  exact ⟨"ncm", by decide, hncm, fun hand => absurd hand.1 (by decide)⟩

/-- Closed instance of `run_core_validations_precondition` at a dataset
lacking the `ncm` column. -/
theorem run_core_validations_precondition_witness :
    "ncm" ∉ missingNcmDf.cols
    ∧ ∃ m, run_core_validations missingNcmDf = .error (.precondition m) :=
  ⟨by decide, (run_core_validations_precondition missingNcmDf).2 (by decide)⟩
/-- Half-even rounding fixes integers. -/
theorem rhe_intCast (k : ℤ) : rhe (k : ℚ) = k := by
  unfold rhe
  rw [Int.floor_intCast]
  norm_num

/-- A rational with denominator 1 is its numerator. -/
theorem eq_num_of_den_one {x : ℚ} (h : x.den = 1) : x = (x.num : ℚ) := by
  conv_lhs => rw [← Rat.num_div_den x]
  rw [h]
  norm_num

/-- `round2` fixes cent-grid rationals. -/
theorem round2_eq_self {x : ℚ} (h : (100 * x).den = 1) : round2 x = x := by
  unfold round2
  have h1 : (100 : ℚ) * x = ((100 * x).num : ℚ) := eq_num_of_den_one h
  rw [h1, rhe_intCast, ← h1]
  rw [mul_div_cancel_left₀]
  norm_num

/-- `round2` lands on the cent grid. -/
theorem den_one_round2_mul (x : ℚ) : (100 * round2 x).den = 1 := by
  unfold round2
  rw [mul_comm, div_mul_cancel₀]
  · exact Rat.den_intCast _
  · norm_num

/-- The cent grid is closed under subtraction. -/
theorem den_one_sub {a b : ℚ} (ha : (100 * a).den = 1) (hb : (100 * b).den = 1) :
    (100 * (a - b)).den = 1 := by
  have ha' : (100 : ℚ) * a = ((100 * a).num : ℚ) := eq_num_of_den_one ha
  have hb' : (100 : ℚ) * b = ((100 * b).num : ℚ) := eq_num_of_den_one hb
  have h : 100 * (a - b) = (((100 * a).num - (100 * b).num : ℤ) : ℚ) := by
    push_cast
    rw [← ha', ← hb']
    ring
  rw [h]
  exact Rat.den_intCast _

/-- Looking a listed column up in a projected row yields the original cell. -/
theorem lookup_projectRow (r : Row) :
    ∀ (cs : List String) (c : String), c ∈ cs →
      List.lookup c (projectRow r cs) = some (getCell r c) := by
  intro cs
  induction cs with
  | nil => intro c hc; cases hc
  | cons c0 rest ih =>
      intro c hc
      unfold projectRow
      rw [List.map_cons]
      by_cases he : c = c0
      · subst he
        simp [List.lookup]
      · have hb : (c == c0) = false := beq_eq_false_iff_ne.2 he
        simp only [List.lookup, hb]
        exact ih c ((List.mem_cons.1 hc).resolve_left he)

/-- `getCell` is preserved by projection to a column list containing it. -/
theorem getCell_projectRow (r : Row) (cs : List String) (c : String) (hc : c ∈ cs) :
    getCell (projectRow r cs) c = getCell r c := by
  unfold getCell
  rw [lookup_projectRow r cs c hc]
  rfl

/-- Projection composes when the inner projection keeps every column the
outer one asks for. -/
theorem projectRow_projectRow (r : Row) (cs cs' : List String)
    (h : ∀ c ∈ cs', c ∈ cs) :
    projectRow (projectRow r cs) cs' = projectRow r cs' := by
  show cs'.map (fun c => (c, getCell (projectRow r cs) c))
    = cs'.map (fun c => (c, getCell r c))
  refine List.map_congr_left ?_
  intro c hc
  rw [getCell_projectRow r cs c (h c hc)]

/-- C3: when the item-total rule runs (all its columns present), its details
table holds exactly the rows whose three numeric inputs parse and whose
`valor_total_item` and `quantidade * valor_unitario`, each rounded to two
decimals, differ by strictly more than 1.0 — rows failing to parse are
dropped; on the boundary fixture, +1.00 is not flagged and +1.01 is. -/
theorem item_total_mismatch_rows (df t : DataFrame)
    (hok : detectItemTotalMismatch df = .ok t)
    (hgrid : ∀ r ∈ df.rows, centGridOn r "valor_total_item" = true) :
    (t.rows = df.rows.filterMap (fun r =>
        match (getCell r "quantidade").toNum, (getCell r "valor_unitario").toNum,
              (getCell r "valor_total_item").toNum with
        | some q, some vu, some vti =>
            if 1 < |round2 vti - round2 (q * vu)| then some (itemIssueRow r q vu vti)
            else none
        | _, _, _ => none))
    ∧ ((detectItemTotalMismatch itemBoundaryDf).map
        (fun u => u.rows.map (fun r => (getCell r "numero_item", getCell r "diferenca")))
      = .ok [(Cell.str "2", Cell.num (101/100))]) := by
  refine ⟨?_, by decide⟩
  unfold detectItemTotalMismatch selectCols at hok
  cases hreq : requireCols df
      ["chave_acesso", "numero", "numero_item", "quantidade", "valor_unitario",
       "valor_total_item", "descricao_item"] with
  | error e =>
      rw [hreq] at hok
      cases hok
  | ok u =>
      rw [hreq] at hok
      simp only [bind, Except.bind, pure, Except.pure] at hok
      cases hok
      dsimp only
      rw [List.filterMap_map, List.filter_filterMap, List.map_filterMap]
      refine List.filterMap_congr ?_
      intro r hr
      have hmem1 : "quantidade" ∈
          ["chave_acesso", "numero", "numero_item", "quantidade", "valor_unitario",
           "valor_total_item", "descricao_item"] := by decide
      have hmem2 : "valor_unitario" ∈
          ["chave_acesso", "numero", "numero_item", "quantidade", "valor_unitario",
           "valor_total_item", "descricao_item"] := by decide
      have hmem3 : "valor_total_item" ∈
          ["chave_acesso", "numero", "numero_item", "quantidade", "valor_unitario",
           "valor_total_item", "descricao_item"] := by decide
      simp only [Function.comp_apply, getCell_projectRow r _ _ hmem1,
        getCell_projectRow r _ _ hmem2, getCell_projectRow r _ _ hmem3]
      rcases hq : (getCell r "quantidade").toNum with _ | q
      · rfl
      rcases hvu : (getCell r "valor_unitario").toNum with _ | vu
      · rfl
      rcases hvti : (getCell r "valor_total_item").toNum with _ | vti
      · rfl
      have hvg : (100 * vti).den = 1 := by
        have h := hgrid r hr
        rw [centGridOn, hvti] at h
        dsimp only at h
        exact eq_of_beq h
      have heg : (100 * round2 (q * vu)).den = 1 := den_one_round2_mul (q * vu)
      have hcond : round2 (vti - round2 (q * vu)) = vti - round2 (q * vu) :=
        round2_eq_self (den_one_sub hvg heg)
      have hvv : round2 vti = vti := round2_eq_self hvg
      dsimp only
      by_cases hlt : 1 < |vti - round2 (q * vu)|
      · have hltc : 1 < |round2 (vti - round2 (q * vu))| := by
          rw [hcond]
          exact hlt
        have hltv : 1 < |round2 vti - round2 (q * vu)| := by
          rw [hvv]
          exact hlt
        simp only [Option.filter, decide_eq_true_eq, if_pos hltc, Option.map_some',
          if_pos hltv]
        unfold itemIssueRow
        rw [projectRow_projectRow r _ _ (by decide)]
      · have hltc : ¬ 1 < |round2 (vti - round2 (q * vu))| := by
          rw [hcond]
          exact hlt
        have hltv : ¬ 1 < |round2 vti - round2 (q * vu)| := by
          rw [hvv]
          exact hlt
        simp only [Option.filter, decide_eq_true_eq, if_neg hltc, Option.map_none',
          if_neg hltv]

/-- Closed instance of `item_total_mismatch_rows` at the boundary fixture. -/
theorem item_total_mismatch_rows_witness :
    detectItemTotalMismatch itemBoundaryDf = .ok itemBoundaryOut
    ∧ (∀ r ∈ itemBoundaryDf.rows, centGridOn r "valor_total_item" = true)
    ∧ itemBoundaryOut.rows = itemBoundaryDf.rows.filterMap (fun r =>
        match (getCell r "quantidade").toNum, (getCell r "valor_unitario").toNum,
              (getCell r "valor_total_item").toNum with
        | some q, some vu, some vti =>
            if 1 < |round2 vti - round2 (q * vu)| then some (itemIssueRow r q vu vti)
            else none
        | _, _, _ => none) :=
  ⟨by decide, by decide,
   (item_total_mismatch_rows itemBoundaryDf itemBoundaryOut (by decide) (by decide)).1⟩
/-- When the row-level CFOP check returns (rather than raising `TypeError`),
it returns exactly the specification's mismatch predicate. -/
theorem cfopMismatchRow_ok (r : Row) (b : Bool)
    (h : cfopMismatchRow (strExtractOneDigit (getCell r "destino_operacao"))
      (extractDigitRun (Cell.pyStr (getCell r "cfop"))) = .ok b) :
    b = cfopSpecFlag r := by
  unfold cfopMismatchRow at h
  unfold cfopSpecFlag
  cases hd : strExtractOneDigit (getCell r "destino_operacao") with
  | none =>
      rw [hd] at h
      cases h
      rfl
  | some d =>
      rw [hd] at h
      dsimp only at h ⊢
      by_cases h1 : d = "1"
      · subst h1
        cases hc : extractDigitRun (Cell.pyStr (getCell r "cfop")) with
        | none => rw [show expectedFor "1" = some ["5"] from rfl, hc] at h; cases h
        | some s =>
            rw [show expectedFor "1" = some ["5"] from rfl, hc] at h
            cases h
            rw [show expectedCfopDigit "1" = some "5" from rfl]
            simp [List.contains_eq_any_beq, List.any]
      · by_cases h2 : d = "2"
        · subst h2
          cases hc : extractDigitRun (Cell.pyStr (getCell r "cfop")) with
          | none => rw [show expectedFor "2" = some ["6"] from rfl, hc] at h; cases h
          | some s =>
              rw [show expectedFor "2" = some ["6"] from rfl, hc] at h
              cases h
              rw [show expectedCfopDigit "2" = some "6" from rfl]
              simp [List.contains_eq_any_beq, List.any]
        · by_cases h3 : d = "3"
          · subst h3
            cases hc : extractDigitRun (Cell.pyStr (getCell r "cfop")) with
            | none => rw [show expectedFor "3" = some ["7"] from rfl, hc] at h; cases h
            | some s =>
                rw [show expectedFor "3" = some ["7"] from rfl, hc] at h
                cases h
                rw [show expectedCfopDigit "3" = some "7" from rfl]
                simp [List.contains_eq_any_beq, List.any]
          · have he : expectedFor d = none := by
              unfold expectedFor cfopRules
              have e1 : (d == "1") = false := beq_eq_false_iff_ne.2 h1
              have e2 : (d == "2") = false := beq_eq_false_iff_ne.2 h2
              have e3 : (d == "3") = false := beq_eq_false_iff_ne.2 h3
              simp [List.lookup, e1, e2, e3]
            have he' : expectedCfopDigit d = none := by
              unfold expectedCfopDigit
              rw [if_neg h1, if_neg h2, if_neg h3]
            rw [he] at h
            cases h
            rw [he']

/-- A successful row-wise `apply` whose per-row result agrees with a spec
predicate filters the rows exactly as the spec predicate does. -/
theorem mapME_ok_spec {α : Type} (f : α → Except PdRunError Bool) (spec : α → Bool)
    (hfs : ∀ a b, f a = .ok b → b = spec a) :
    ∀ (rows : List α) (mask : List Bool), mapME f rows = .ok mask →
      (rows.zip mask).filterMap (fun p => if p.2 then some p.1 else none)
        = rows.filter spec := by
  intro rows
  induction rows with
  | nil =>
      intro mask h
      unfold mapME at h
      cases h
      rfl
  | cons r rest ih =>
      intro mask h
      unfold mapME at h
      cases hfr : f r with
      | error e =>
          rw [hfr] at h
          simp only [bind, Except.bind] at h
          cases h
      | ok b =>
          rw [hfr] at h
          simp only [bind, Except.bind] at h
          cases hrest : mapME f rest with
          | error e =>
              rw [hrest] at h
              cases h
          | ok bs =>
              rw [hrest] at h
              simp only [pure, Except.pure, Except.ok.injEq] at h
              subst h
              have hb := hfs r b hfr
              subst hb
              rw [List.zip_cons_cons, List.filterMap_cons, List.filter_cons]
              by_cases hs : spec r
              · simp only [hs, if_true, ih bs hrest]
              · simp only [hs, Bool.false_eq_true, if_false, ih bs hrest]

/-- Looking a column of the projection up, past an appended tail. -/
theorem lookup_projectRow_append (r : Row) (rest : Row) :
    ∀ (cs : List String) (c : String), c ∈ cs →
      List.lookup c (projectRow r cs ++ rest) = some (getCell r c) := by
  intro cs
  induction cs with
  | nil => intro c hc; cases hc
  | cons c0 t ih =>
      intro c hc
      unfold projectRow
      rw [List.map_cons, List.cons_append]
      by_cases he : c = c0
      · subst he
        simp [List.lookup]
      · have hb : (c == c0) = false := beq_eq_false_iff_ne.2 he
        simp only [List.lookup, hb]
        exact ih c ((List.mem_cons.1 hc).resolve_left he)

/-- Skipping a projection on unlisted columns. -/
theorem lookup_projectRow_not_mem (r : Row) (rest : Row) :
    ∀ (cs : List String) (c : String), c ∉ cs →
      List.lookup c (projectRow r cs ++ rest) = List.lookup c rest := by
  intro cs
  induction cs with
  | nil => intro c _; rfl
  | cons c0 t ih =>
      intro c hc
      unfold projectRow
      rw [List.map_cons, List.cons_append]
      have he : c ≠ c0 := fun h => hc (h ▸ List.mem_cons_self c0 t)
      have hb : (c == c0) = false := beq_eq_false_iff_ne.2 he
      simp only [List.lookup, hb]
      exact ih c (fun h => hc (List.mem_cons_of_mem c0 h))

/-- The detail row built by the CFOP rule preserves the base columns. -/
theorem getCell_cfopOutRow (r : Row) (de : Cell) (c : String)
    (hc : c ∈ ["chave_acesso", "numero", "numero_item", "cfop", "destino_operacao",
               "valor_total_item"]) :
    getCell (projectRow r ["chave_acesso", "numero", "numero_item", "cfop", "destino_operacao"]
        ++ [("destino_esperado", de)] ++ projectRow r ["valor_total_item"]) c
      = getCell r c := by
  rw [List.append_assoc]
  fin_cases hc
  · unfold getCell
    rw [lookup_projectRow_append r _ _ _ (by decide)]
    rfl
  · unfold getCell
    rw [lookup_projectRow_append r _ _ _ (by decide)]
    rfl
  · unfold getCell
    rw [lookup_projectRow_append r _ _ _ (by decide)]
    rfl
  · unfold getCell
    rw [lookup_projectRow_append r _ _ _ (by decide)]
    rfl
  · unfold getCell
    rw [lookup_projectRow_append r _ _ _ (by decide)]
    rfl
  · unfold getCell
    rw [lookup_projectRow_not_mem r _ _ _ (by decide)]
    rw [show ([("destino_esperado", de)] ++ projectRow r ["valor_total_item"])
      = ("destino_esperado", de) :: projectRow r ["valor_total_item"] from rfl]
    have hb : (("valor_total_item" : String) == "destino_esperado") = false := by decide
    simp only [List.lookup, hb]
    rfl

/-- C7: when the CFOP rule runs without raising, its details hold exactly the
rows whose recognized destination code ("1", "2", "3") expects a CFOP leading
digit ("5", "6", "7") different from the actual one; rows with an absent or
unrecognized destination are never flagged.  Concretely destination "1" with
CFOP "5102" is not flagged and destination "1" with CFOP "6108" is. -/
theorem cfop_mismatch_rows (df t : DataFrame)
    (hdest : "destino_operacao" ∈ df.cols)
    (hok : detectCfopMismatch df = .ok t) :
    (t.rows.map (fun r => projectRow r
        ["chave_acesso", "numero", "numero_item", "cfop", "destino_operacao",
         "valor_total_item"])
      = (df.rows.filter cfopSpecFlag).map (fun r => projectRow r
        ["chave_acesso", "numero", "numero_item", "cfop", "destino_operacao",
         "valor_total_item"]))
    ∧ ((detectCfopMismatch cfopExampleDf).map
        (fun u => u.rows.map (fun r => getCell r "cfop")) = .ok [Cell.str "6108"])
    ∧ cfopSpecFlag (fullRow "K1" "1" "1" "5102" "1 - operacao interna"
        (.num 1) (.num 1) (.num 1) (.num 1)) = false
    ∧ cfopSpecFlag (fullRow "K1" "1" "2" "6108" "1 - operacao interna"
        (.num 1) (.num 1) (.num 1) (.num 1)) = true := by
  refine ⟨?_, by decide, by decide, by decide⟩
  have hcont : df.cols.contains "destino_operacao" = true := List.elem_iff.2 hdest
  unfold detectCfopMismatch selectCols at hok
  rw [hcont] at hok
  simp only [Bool.not_true, Bool.false_eq_true, if_false] at hok
  cases hreq : requireCols df
      ["chave_acesso", "numero", "numero_item", "cfop", "destino_operacao",
       "valor_total_item"] with
  | error e =>
      rw [hreq] at hok
      simp only [bind, Except.bind] at hok
      cases hok
  | ok u =>
      rw [hreq] at hok
      simp only [bind, Except.bind, pure, Except.pure] at hok
      cases hmask : mapME (fun r => cfopMismatchRow
          (strExtractOneDigit (getCell r "destino_operacao"))
          (extractDigitRun (Cell.pyStr (getCell r "cfop"))))
          (df.rows.map (fun r => projectRow r
            ["chave_acesso", "numero", "numero_item", "cfop", "destino_operacao",
             "valor_total_item"])) with
      | error e =>
          rw [hmask] at hok
          cases hok
      | ok mask =>
          rw [hmask] at hok
          dsimp only at hok
          have hiss := mapME_ok_spec _ cfopSpecFlag
            (fun a b hab => cfopMismatchRow_ok a b hab) _ mask hmask
          have hspecproj : ∀ r : Row, cfopSpecFlag (projectRow r
              ["chave_acesso", "numero", "numero_item", "cfop", "destino_operacao",
               "valor_total_item"]) = cfopSpecFlag r := by
            intro r
            unfold cfopSpecFlag
            rw [getCell_projectRow r _ _ (by decide), getCell_projectRow r _ _ (by decide)]
          have hfm : (df.rows.map (fun r => projectRow r
              ["chave_acesso", "numero", "numero_item", "cfop", "destino_operacao",
               "valor_total_item"])).filter cfopSpecFlag
              = (df.rows.filter cfopSpecFlag).map (fun r => projectRow r
              ["chave_acesso", "numero", "numero_item", "cfop", "destino_operacao",
               "valor_total_item"]) := by
            rw [List.filter_map]
            exact congrArg _ (List.filter_congr (fun r _ => hspecproj r))
          rw [hiss, hfm] at hok
          by_cases hE : ((df.rows.filter cfopSpecFlag).map (fun r => projectRow r
              ["chave_acesso", "numero", "numero_item", "cfop", "destino_operacao",
               "valor_total_item"])).isEmpty
          · rw [if_pos hE] at hok
            cases hok
            rw [List.isEmpty_iff] at hE
            rw [hE]
            rfl
          · rw [if_neg hE] at hok
            cases hok
            dsimp only
            rw [List.map_map, List.map_map]
            refine List.map_congr_left ?_
            intro r hr
            have hproj : ∀ (r' : Row) (de : Cell),
                projectRow (projectRow r'
                    ["chave_acesso", "numero", "numero_item", "cfop", "destino_operacao"]
                  ++ [("destino_esperado", de)] ++ projectRow r' ["valor_total_item"])
                  ["chave_acesso", "numero", "numero_item", "cfop", "destino_operacao",
                   "valor_total_item"]
                = projectRow r'
                  ["chave_acesso", "numero", "numero_item", "cfop", "destino_operacao",
                   "valor_total_item"] := by
              intro r' de
              show List.map _ _ = List.map _ _
              refine List.map_congr_left ?_
              intro c hc
              rw [getCell_cfopOutRow r' de c hc]
            dsimp only [Function.comp]
            rw [hproj, projectRow_projectRow r _ _ (by decide)]

/-- Closed instance of `cfop_mismatch_rows` at the two-row example data. -/
theorem cfop_mismatch_rows_witness :
    "destino_operacao" ∈ cfopExampleDf.cols
    ∧ detectCfopMismatch cfopExampleDf = .ok cfopExampleOut
    ∧ cfopExampleOut.rows.map (fun r => projectRow r
        ["chave_acesso", "numero", "numero_item", "cfop", "destino_operacao",
         "valor_total_item"])
      = (cfopExampleDf.rows.filter cfopSpecFlag).map (fun r => projectRow r
        ["chave_acesso", "numero", "numero_item", "cfop", "destino_operacao",
         "valor_total_item"]) :=
  ⟨by decide, by decide,
   (cfop_mismatch_rows cfopExampleDf cfopExampleOut (by decide) (by decide)).1⟩
/-- Column selection succeeds when every requested column exists. -/
theorem requireCols_ok (df : DataFrame) (cs : List String)
    (h : ∀ c ∈ cs, c ∈ df.cols) : requireCols df cs = .ok () := by
  unfold requireCols
  rw [List.find?_eq_none.2]
  intro c hc
  have hel := List.elem_iff.2 (h c hc)
  simp only [List.contains, hel, Bool.not_true, Bool.false_eq_true, not_false_eq_true]

/-- Folding the null-skipping sum over the non-null cells equals summing
`cellNumOr0` over all cells. -/
theorem fold_filter_sum :
    ∀ (cells : List Cell) (a : ℚ),
      ((cells.filter (fun c => c ≠ Cell.na)).foldl
        (fun acc c => match c with | Cell.num q => acc + q | _ => acc) a)
      = a + (cells.map cellNumOr0).sum := by
  intro cells
  induction cells with
  | nil =>
      intro a
      simp
  | cons c t ih =>
      intro a
      rw [List.map_cons, List.sum_cons, List.filter_cons]
      cases c with
      | na =>
          rw [if_neg (show ¬(decide ((Cell.na : Cell) ≠ Cell.na)) = true from by decide)]
          rw [ih a]
          show a + _ = a + (0 + _)
          ring
      | num q =>
          rw [if_pos (show (decide ((Cell.num q : Cell) ≠ Cell.na)) = true from rfl)]
          rw [List.foldl_cons]
          show List.foldl _ (a + q) _ = _
          rw [ih (a + q)]
          show _ = a + (q + _)
          ring
      | str v =>
          rw [if_pos (show (decide ((Cell.str v : Cell) ≠ Cell.na)) = true from rfl)]
          rw [List.foldl_cons]
          show List.foldl _ a _ = _
          rw [ih a]
          show _ = a + (0 + _)
          ring
      | strs l =>
          rw [if_pos (show (decide ((Cell.strs l : Cell) ≠ Cell.na)) = true from rfl)]
          rw [List.foldl_cons]
          show List.foldl _ a _ = _
          rw [ih a]
          show _ = a + (0 + _)
          ring

/-- On a numeric (number-or-null) column slice, the pandas sum is the
null-skipping rational sum. -/
theorem pdSum_of_numOrNa (cells : List Cell)
    (h : ∀ c ∈ cells, isNumOrNa c = true) :
    pdSum cells = .ok (.num ((cells.map cellNumOr0).sum)) := by
  unfold pdSum
  by_cases hE : (cells.filter (fun c => c ≠ Cell.na)).isEmpty
  · rw [if_pos hE]
    have hz : (cells.map cellNumOr0).sum = 0 := by
      refine List.sum_eq_zero ?_
      intro x hx
      rw [List.mem_map] at hx
      obtain ⟨c, hc, rfl⟩ := hx
      have hna : c = Cell.na := by
        by_contra hne
        rw [List.isEmpty_iff] at hE
        have : c ∈ cells.filter (fun c => c ≠ Cell.na) :=
          List.mem_filter.2 ⟨hc, decide_eq_true hne⟩
        rw [hE] at this
        cases this
      rw [hna]
      rfl
    rw [hz]
  · rw [if_neg hE]
    have hall : ((cells.filter (fun c => c ≠ Cell.na)).all
        (fun c => match c with | Cell.num _ => true | _ => false)) = true := by
      rw [List.all_eq_true]
      intro c hc
      rw [List.mem_filter] at hc
      obtain ⟨hmem, hne⟩ := hc
      have := h c hmem
      cases c with
      | na => cases (of_decide_eq_true hne) rfl
      | num q => rfl
      | str s => cases this
      | strs l => cases this
    rw [if_pos hall]
    rw [fold_filter_sum cells 0, zero_add]

/-- A row-wise `apply` all of whose per-row computations succeed with value
`g a` succeeds with the mapped list. -/
theorem mapME_ok_of_all {α β : Type} (f : α → Except PdRunError β) (g : α → β) :
    ∀ (l : List α), (∀ a ∈ l, f a = .ok (g a)) → mapME f l = .ok (l.map g) := by
  intro l
  induction l with
  | nil => intro _; rfl
  | cons a t ih =>
      intro h
      unfold mapME
      rw [h a (List.mem_cons_self _ _)]
      simp only [bind, Except.bind]
      rw [ih (fun b hb => h b (List.mem_cons_of_mem a hb))]
      rfl

/-- Filtering then mapping is a conditional `filterMap`. -/
theorem filter_map_eq_filterMap {α β : Type} (p : α → Bool) (m : α → β) :
    ∀ (l : List α),
      (l.filter p).map m = l.filterMap (fun a => if p a then some (m a) else none) := by
  intro l
  induction l with
  | nil => rfl
  | cons a t ih =>
      rw [List.filter_cons, List.filterMap_cons]
      by_cases hp : p a
      · simp only [hp, if_true, List.map_cons, ih]
      · simp only [hp, Bool.false_eq_true, if_false, ih]

/-- Membership in `dedupByKeyFirst` with no keys seen: exactly the first row
of each key. -/
theorem mem_dedupByKeyFirst {α κ : Type} [DecidableEq κ] (key : α → κ) :
    ∀ (l : List α) (seen : List κ) (r : α),
      r ∈ dedupByKeyFirst key l seen
        ↔ (key r ∉ seen ∧ l.find? (fun s => key s = key r) = some r) := by
  intro l
  induction l with
  | nil =>
      intro seen r
      simp [dedupByKeyFirst]
  | cons a t ih =>
      intro seen r
      by_cases ha : key a ∈ seen
      · rw [show dedupByKeyFirst key (a :: t) seen = dedupByKeyFirst key t seen by
          simp only [dedupByKeyFirst, if_pos ha]]
        rw [ih seen r]
        by_cases hk : key a = key r
        · constructor
          · rintro ⟨h1, _⟩
            exact absurd (hk ▸ ha) h1
          · rintro ⟨h1, _⟩
            exact absurd (hk ▸ ha) h1
        · have hna : ¬ ((fun s => decide (key s = key r)) a = true) := by
            simp [hk]
          rw [@List.find?_cons_of_neg _ (fun s => decide (key s = key r)) a t hna]
      · rw [show dedupByKeyFirst key (a :: t) seen
            = a :: dedupByKeyFirst key t (key a :: seen) by
          simp only [dedupByKeyFirst, if_neg ha]]
        constructor
        · intro h
          rcases List.mem_cons.1 h with rfl | h'
          · refine ⟨ha, ?_⟩
            exact @List.find?_cons_of_pos _ (fun s => decide (key s = key r)) r t (by simp)
          · have h2 := (ih (key a :: seen) r).1 h'
            have hk : key a ≠ key r := fun he =>
              h2.1 (he ▸ List.mem_cons_self (key a) seen)
            refine ⟨fun hs => h2.1 (List.mem_cons_of_mem _ hs), ?_⟩
            rw [@List.find?_cons_of_neg _ (fun s => decide (key s = key r)) a t (by simp [hk])]
            exact h2.2
        · rintro ⟨h1, h2⟩
          by_cases hk : key a = key r
          · rw [@List.find?_cons_of_pos _ (fun s => decide (key s = key r)) a t (by simp [hk])] at h2
            cases h2
            exact List.mem_cons_self _ _
          · rw [@List.find?_cons_of_neg _ (fun s => decide (key s = key r)) a t (by simp [hk])] at h2
            refine List.mem_cons_of_mem a ((ih (key a :: seen) r).2 ⟨?_, h2⟩)
            intro hs
            rcases List.mem_cons.1 hs with he | hs'
            · exact hk he.symm
            · exact h1 hs'

/-- Projection keeps the document key. -/
theorem notaKey_projectRow (r : Row) :
    notaKey (projectRow r ["chave_acesso", "numero", "valor_total_item",
      "valor_total_nota"]) = notaKey r := by
  unfold notaKey
  rw [getCell_projectRow r _ _ (by decide), getCell_projectRow r _ _ (by decide)]

/-- Characterization of the note-total rule on a table whose
`valor_total_item` column is numeric: the details are, for each document's
first row (in order), the row built from its coerced declared total and the
null-skipping item sum, kept when the rounded difference strictly exceeds
1. -/
theorem detectNota_rows (df : DataFrame)
    (hc1 : "chave_acesso" ∈ df.cols) (hc2 : "numero" ∈ df.cols)
    (hc3 : "valor_total_item" ∈ df.cols) (hvtn : "valor_total_nota" ∈ df.cols)
    (hnum : ∀ r ∈ df.rows, isNumOrNa (getCell r "valor_total_item") = true) :
    detectNotaTotalMismatch df
      = .ok ⟨["chave_acesso", "numero", "valor_total_nota", "soma_itens", "diferenca"],
        (dedupByKeyFirst notaKey
            (df.rows.map (fun r => projectRow r
              ["chave_acesso", "numero", "valor_total_item", "valor_total_nota"])) []).filterMap
          (fun r =>
            match (getCell r "valor_total_nota").toNum with
            | some tot =>
                if 1 < |round2 (tot - somaSpec df (notaKey r))| then
                  some (notaIssueRow "valor_total_nota" r tot (somaSpec df (notaKey r)))
                else none
            | none => none)⟩ := by
  have hfind : TOTAL_NOTA_FALLBACK.find? (fun c => df.cols.contains c)
      = some "valor_total_nota" := by
    unfold TOTAL_NOTA_FALLBACK
    exact List.find?_cons_of_pos _ (List.elem_iff.2 hvtn)
  unfold detectNotaTotalMismatch selectCols
  rw [hfind]
  dsimp only
  rw [requireCols_ok df _ (by intro c hc; fin_cases hc <;> assumption)]
  simp only [bind, Except.bind, pure, Except.pure]
  have hsum : ∀ r : Row,
      pdSum ((((df.rows.map (fun r => projectRow r
          ["chave_acesso", "numero", "valor_total_item", "valor_total_nota"])).filter
        (fun s => notaKey s = notaKey r)).map
        (fun s => getCell s "valor_total_item")))
      = .ok (.num (somaSpec df (notaKey r))) := by
    intro r
    rw [List.filter_map]
    have hpk : ∀ s : Row, (notaKey (projectRow s ["chave_acesso", "numero",
        "valor_total_item", "valor_total_nota"]) = notaKey r) = (notaKey s = notaKey r) := by
      intro s
      rw [notaKey_projectRow]
    have hfc : (df.rows.filter ((fun s => decide (notaKey s = notaKey r)) ∘
        (fun s => projectRow s ["chave_acesso", "numero", "valor_total_item",
          "valor_total_nota"])))
        = df.rows.filter (fun s => decide (notaKey s = notaKey r)) := by
      refine List.filter_congr ?_
      intro s _
      show decide (notaKey (projectRow s _) = notaKey r) = decide (notaKey s = notaKey r)
      rw [notaKey_projectRow]
    rw [hfc, List.map_map]
    have hcells : ∀ c ∈ (df.rows.filter (fun s => decide (notaKey s = notaKey r))).map
        ((fun s => getCell s "valor_total_item") ∘ (fun s => projectRow s
          ["chave_acesso", "numero", "valor_total_item", "valor_total_nota"])),
        isNumOrNa c = true := by
      intro c hc
      rw [List.mem_map] at hc
      obtain ⟨s, hs, rfl⟩ := hc
      show isNumOrNa (getCell (projectRow s _) "valor_total_item") = true
      rw [getCell_projectRow s _ _ (by decide)]
      exact hnum s (List.mem_filter.1 hs).1
    rw [pdSum_of_numOrNa _ hcells]
    unfold somaSpec
    rw [List.map_map]
    congr 1
  have hmerged := mapME_ok_of_all
    (fun r => do
      let soma ← pdSum (((df.rows.map (fun r => projectRow r
          ["chave_acesso", "numero", "valor_total_item", "valor_total_nota"])).filter
        (fun s => notaKey s = notaKey r)).map
        (fun s => getCell s "valor_total_item"))
      pure (r, soma))
    (fun r => (r, Cell.num (somaSpec df (notaKey r))))
    (dedupByKeyFirst notaKey (df.rows.map (fun r => projectRow r
      ["chave_acesso", "numero", "valor_total_item", "valor_total_nota"])) [])
    (fun r _ => by simp only [hsum r]; rfl)
  simp only [bind, Except.bind, pure, Except.pure] at hmerged
  rw [hmerged]
  simp only
  rw [List.map_map, List.filter_map, List.map_map, filter_map_eq_filterMap]
  refine congrArg Except.ok ?_
  refine congrArg (DataFrame.mk _) ?_
  refine List.filterMap_congr ?_
  intro r _
  rcases htot : (getCell r "valor_total_nota").toNum with _ | tot
  · simp only [Function.comp_apply, htot]
    rfl
  · simp only [Function.comp_apply, htot,
      show ∀ q : ℚ, (Cell.num q).toNum = some q from fun q => rfl]
    by_cases hflag : 1 < |round2 (tot - somaSpec df (notaKey r))|
    · rw [if_pos (decide_eq_true hflag), if_pos hflag]
      rfl
    · rw [if_neg (by simpa using hflag), if_neg hflag]

/-- Membership in the note-total rule's details: exactly one row per
document whose first row's coerced declared total differs from the item sum
by more than 1 after rounding, built by `notaIssueRow`. -/
theorem nota_rows_mem (df t : DataFrame)
    (hc1 : "chave_acesso" ∈ df.cols) (hc2 : "numero" ∈ df.cols)
    (hc3 : "valor_total_item" ∈ df.cols) (hvtn : "valor_total_nota" ∈ df.cols)
    (hnum : ∀ r ∈ df.rows, isNumOrNa (getCell r "valor_total_item") = true)
    (hok : detectNotaTotalMismatch df = .ok t) :
    ∀ row, row ∈ t.rows
      ↔ ∃ r0 tot, df.rows.find? (fun s => notaKey s = notaKey r0) = some r0
          ∧ (getCell r0 "valor_total_nota").toNum = some tot
          ∧ 1 < |round2 (tot - somaSpec df (notaKey r0))|
          ∧ row = notaIssueRow "valor_total_nota"
              (projectRow r0 ["chave_acesso", "numero", "valor_total_item",
                "valor_total_nota"]) tot (somaSpec df (notaKey r0)) := by
  rw [detectNota_rows df hc1 hc2 hc3 hvtn hnum] at hok
  cases hok
  intro row
  dsimp only
  rw [List.mem_filterMap]
  have hpredeq : ∀ k : Cell × Cell,
      (fun s : Row => decide (notaKey s = k)) ∘ (fun r => projectRow r
        ["chave_acesso", "numero", "valor_total_item", "valor_total_nota"])
      = (fun s : Row => decide (notaKey s = k)) := by
    intro k
    funext s
    show decide (notaKey (projectRow s _) = k) = decide (notaKey s = k)
    rw [notaKey_projectRow]
  constructor
  · rintro ⟨w, hw, hF⟩
    have hw' := (mem_dedupByKeyFirst notaKey _ [] w).1 hw
    obtain ⟨-, hfindW⟩ := hw'
    rw [List.find?_map] at hfindW
    rcases hmap : List.find? ((fun s => decide (notaKey s = notaKey w)) ∘ fun r =>
        projectRow r ["chave_acesso", "numero", "valor_total_item", "valor_total_nota"])
        df.rows with _ | r0
    · rw [hmap] at hfindW
      cases hfindW
    · rw [hmap] at hfindW
      have hwr0 : projectRow r0 ["chave_acesso", "numero", "valor_total_item",
          "valor_total_nota"] = w := by
        have := hfindW
        simp only [Option.map_some'] at this
        exact Option.some.inj this
      have hkey : notaKey r0 = notaKey w := by
        rw [← hwr0, notaKey_projectRow]
      rw [hpredeq] at hmap
      rw [← hkey] at hmap
      rcases htot : (getCell w "valor_total_nota").toNum with _ | tot
      · rw [htot] at hF
        cases hF
      · rw [htot] at hF
        dsimp only at hF
        by_cases hflag : 1 < |round2 (tot - somaSpec df (notaKey w))|
        · rw [if_pos hflag] at hF
          refine ⟨r0, tot, hmap, ?_, ?_, ?_⟩
          · rw [← hwr0] at htot
            rwa [getCell_projectRow r0 _ _ (by decide)] at htot
          · rwa [hkey]
          · rw [hkey, hwr0]
            exact (Option.some.inj hF).symm
        · rw [if_neg hflag] at hF
          cases hF
  · rintro ⟨r0, tot, hfind, htot, hflag, hrow⟩
    refine ⟨projectRow r0 ["chave_acesso", "numero", "valor_total_item",
      "valor_total_nota"], ?_, ?_⟩
    · refine (mem_dedupByKeyFirst notaKey _ [] _).2 ⟨List.not_mem_nil _, ?_⟩
      rw [List.find?_map, hpredeq, notaKey_projectRow, hfind]
      rfl
    · have htot' : (getCell (projectRow r0 ["chave_acesso", "numero",
          "valor_total_item", "valor_total_nota"]) "valor_total_nota").toNum
          = some tot := by
        rwa [getCell_projectRow r0 _ _ (by decide)]
      rw [htot', notaKey_projectRow]
      dsimp only
      rw [if_pos hflag, hrow]

/-- C4: the note-total rule groups item rows by (`chave_acesso`, `numero`),
sums `valor_total_item` per group, and flags exactly the documents whose
declared total (read off the document's first row) differs from the item sum
by strictly more than 1.0 after rounding, reporting `diferenca` as declared
minus sum; on a dataset whose document (K1, 1) sums to 150.00 against a
declared 200.00, the details are exactly one row with `diferenca` 50.00. -/
theorem nota_total_mismatch_flags (df t : DataFrame)
    (hc1 : "chave_acesso" ∈ df.cols) (hc2 : "numero" ∈ df.cols)
    (hc3 : "valor_total_item" ∈ df.cols) (hvtn : "valor_total_nota" ∈ df.cols)
    (hnum : ∀ r ∈ df.rows, isNumOrNa (getCell r "valor_total_item") = true)
    (hok : detectNotaTotalMismatch df = .ok t) :
    (∀ ch nu : Cell,
      (∃ row ∈ t.rows, getCell row "chave_acesso" = ch ∧ getCell row "numero" = nu)
        ↔ (∃ r0, df.rows.find? (fun s => notaKey s = (ch, nu)) = some r0
            ∧ ∃ tot, (getCell r0 "valor_total_nota").toNum = some tot
              ∧ 1 < |round2 (tot - somaSpec df (ch, nu))|))
    ∧ (∀ row ∈ t.rows, ∃ tot,
        getCell row "valor_total_nota" = Cell.num tot
        ∧ getCell row "soma_itens" = Cell.num (somaSpec df (notaKey row))
        ∧ getCell row "diferenca" = Cell.num (round2 (tot - somaSpec df (notaKey row))))
    ∧ ((detectNotaTotalMismatch notaExampleDf).map (fun u => u.rows.map (fun row =>
        (getCell row "chave_acesso", getCell row "numero", getCell row "valor_total_nota",
         getCell row "soma_itens", getCell row "diferenca")))
      = .ok [(Cell.str "K1", Cell.str "1", Cell.num 200, Cell.num 150, Cell.num 50)]) := by
  have hmem := nota_rows_mem df t hc1 hc2 hc3 hvtn hnum hok
  refine ⟨?_, ?_, by decide⟩
  · intro ch nu
    constructor
    · rintro ⟨row, hrowmem, hch, hnu⟩
      obtain ⟨r0, tot, hfind, htot, hflag, hroweq⟩ := (hmem row).1 hrowmem
      have hch' : getCell row "chave_acesso" = getCell r0 "chave_acesso" := by
        rw [hroweq]
        show getCell (projectRow r0 ["chave_acesso", "numero", "valor_total_item",
          "valor_total_nota"]) "chave_acesso" = _
        rw [getCell_projectRow r0 _ _ (by decide)]
      have hnu' : getCell row "numero" = getCell r0 "numero" := by
        rw [hroweq]
        show getCell (projectRow r0 ["chave_acesso", "numero", "valor_total_item",
          "valor_total_nota"]) "numero" = _
        rw [getCell_projectRow r0 _ _ (by decide)]
      have hkey : notaKey r0 = (ch, nu) := by
        unfold notaKey
        rw [hch'.symm.trans hch, hnu'.symm.trans hnu]
      refine ⟨r0, ?_, tot, htot, ?_⟩
      · rw [← hkey]
        exact hfind
      · rw [← hkey]
        exact hflag
    · rintro ⟨r0, hfind, tot, htot, hflag⟩
      have hp := List.find?_some hfind
      have hkey : notaKey r0 = (ch, nu) := of_decide_eq_true hp
      have hfind' : df.rows.find? (fun s => notaKey s = notaKey r0) = some r0 := by
        rw [hkey]
        exact hfind
      have hflag' : 1 < |round2 (tot - somaSpec df (notaKey r0))| := by
        rw [hkey]
        exact hflag
      refine ⟨notaIssueRow "valor_total_nota"
        (projectRow r0 ["chave_acesso", "numero", "valor_total_item", "valor_total_nota"])
        tot (somaSpec df (notaKey r0)), ?_, ?_, ?_⟩
      · exact (hmem _).2 ⟨r0, tot, hfind', htot, hflag', rfl⟩
      · show getCell (projectRow r0 ["chave_acesso", "numero", "valor_total_item",
          "valor_total_nota"]) "chave_acesso" = ch
        rw [getCell_projectRow r0 _ _ (by decide)]
        exact congrArg Prod.fst hkey
      · show getCell (projectRow r0 ["chave_acesso", "numero", "valor_total_item",
          "valor_total_nota"]) "numero" = nu
        rw [getCell_projectRow r0 _ _ (by decide)]
        exact congrArg Prod.snd hkey
  · intro row hrow
    obtain ⟨r0, tot, hfind, htot, hflag, hroweq⟩ := (hmem row).1 hrow
    have hkeyrow : notaKey row = notaKey r0 := by
      rw [hroweq]
      show (getCell (projectRow r0 ["chave_acesso", "numero", "valor_total_item",
        "valor_total_nota"]) "chave_acesso", getCell (projectRow r0 ["chave_acesso",
        "numero", "valor_total_item", "valor_total_nota"]) "numero") = notaKey r0
      rw [getCell_projectRow r0 _ _ (by decide), getCell_projectRow r0 _ _ (by decide)]
      rfl
    refine ⟨tot, ?_, ?_, ?_⟩
    · rw [hroweq]
      rfl
    · rw [hkeyrow, hroweq]
      rfl
    · rw [hkeyrow, hroweq]
      rfl

/-- Closed instance of `nota_total_mismatch_flags` at the 150-versus-200
fixture. -/
theorem nota_total_mismatch_flags_witness :
    detectNotaTotalMismatch notaExampleDf = .ok notaExampleOut
    ∧ (∀ r ∈ notaExampleDf.rows, isNumOrNa (getCell r "valor_total_item") = true)
    ∧ (∀ row ∈ notaExampleOut.rows, ∃ tot,
        getCell row "valor_total_nota" = Cell.num tot
        ∧ getCell row "soma_itens" = Cell.num (somaSpec notaExampleDf (notaKey row))
        ∧ getCell row "diferenca"
            = Cell.num (round2 (tot - somaSpec notaExampleDf (notaKey row)))) :=
  ⟨by decide, by decide,
   (nota_total_mismatch_flags notaExampleDf notaExampleOut (by decide) (by decide)
     (by decide) (by decide) (by decide) (by decide)).2.1⟩

/-- C10: item rows with a null `valor_total_item` contribute 0 to the
per-document sum instead of dropping the document: a document all of whose
item values are null still has item sum 0, and is flagged with
`soma_itens` 0 and `diferenca` equal to its rounded declared total whenever
that total exceeds 1.0 in absolute value. -/
theorem nota_missing_items_flagged (df t : DataFrame)
    (hc1 : "chave_acesso" ∈ df.cols) (hc2 : "numero" ∈ df.cols)
    (hc3 : "valor_total_item" ∈ df.cols) (hvtn : "valor_total_nota" ∈ df.cols)
    (hnum : ∀ r ∈ df.rows, isNumOrNa (getCell r "valor_total_item") = true)
    (hok : detectNotaTotalMismatch df = .ok t) :
    (∀ ch nu : Cell,
      (∀ r ∈ df.rows, notaKey r = (ch, nu) → getCell r "valor_total_item" = Cell.na) →
        somaSpec df (ch, nu) = 0)
    ∧ (∀ ch nu : Cell,
      (∀ r ∈ df.rows, notaKey r = (ch, nu) → getCell r "valor_total_item" = Cell.na) →
      ∀ r0 tot, df.rows.find? (fun s => notaKey s = (ch, nu)) = some r0 →
        (getCell r0 "valor_total_nota").toNum = some tot →
        1 < |round2 tot| →
        ∃ row ∈ t.rows, getCell row "chave_acesso" = ch ∧ getCell row "numero" = nu
          ∧ getCell row "soma_itens" = Cell.num 0
          ∧ getCell row "diferenca" = Cell.num (round2 tot))
    ∧ ((detectNotaTotalMismatch notaMissingDf).map (fun u => u.rows.map (fun row =>
        (getCell row "chave_acesso", getCell row "soma_itens", getCell row "diferenca")))
      = .ok [(Cell.str "K1", Cell.num 0, Cell.num 10)]) := by
  have hmem := nota_rows_mem df t hc1 hc2 hc3 hvtn hnum hok
  have hzero : ∀ ch nu : Cell,
      (∀ r ∈ df.rows, notaKey r = (ch, nu) → getCell r "valor_total_item" = Cell.na) →
        somaSpec df (ch, nu) = 0 := by
    intro ch nu hall
    unfold somaSpec
    refine List.sum_eq_zero ?_
    intro x hx
    rw [List.mem_map] at hx
    obtain ⟨r, hr, rfl⟩ := hx
    rw [List.mem_filter] at hr
    have hna := hall r hr.1 (of_decide_eq_true hr.2)
    rw [hna]
    rfl
  refine ⟨hzero, ?_, by decide⟩
  intro ch nu hall r0 tot hfind htot hflag
  have hp := List.find?_some hfind
  have hkey : notaKey r0 = (ch, nu) := of_decide_eq_true hp
  have hz := hzero ch nu hall
  have hfind' : df.rows.find? (fun s => notaKey s = notaKey r0) = some r0 := by
    rw [hkey]
    exact hfind
  have hflag' : 1 < |round2 (tot - somaSpec df (notaKey r0))| := by
    rw [hkey, hz, sub_zero]
    exact hflag
  refine ⟨notaIssueRow "valor_total_nota"
    (projectRow r0 ["chave_acesso", "numero", "valor_total_item", "valor_total_nota"])
    tot (somaSpec df (notaKey r0)), ?_, ?_, ?_, ?_, ?_⟩
  · exact (hmem _).2 ⟨r0, tot, hfind', htot, hflag', rfl⟩
  · show getCell (projectRow r0 ["chave_acesso", "numero", "valor_total_item",
      "valor_total_nota"]) "chave_acesso" = ch
    rw [getCell_projectRow r0 _ _ (by decide)]
    exact congrArg Prod.fst hkey
  · show getCell (projectRow r0 ["chave_acesso", "numero", "valor_total_item",
      "valor_total_nota"]) "numero" = nu
    rw [getCell_projectRow r0 _ _ (by decide)]
    exact congrArg Prod.snd hkey
  · show Cell.num (somaSpec df (notaKey r0)) = Cell.num 0
    rw [hkey, hz]
  · show Cell.num (round2 (tot - somaSpec df (notaKey r0))) = Cell.num (round2 tot)
    rw [hkey, hz, sub_zero]

/-- Closed instance of `nota_missing_items_flagged` at the all-null-items
fixture. -/
theorem nota_missing_items_flagged_witness :
    detectNotaTotalMismatch notaMissingDf = .ok notaMissingOut
    ∧ (∀ r ∈ notaMissingDf.rows,
        notaKey r = (Cell.str "K1", Cell.str "1") →
          getCell r "valor_total_item" = Cell.na)
    ∧ somaSpec notaMissingDf (Cell.str "K1", Cell.str "1") = 0 :=
  ⟨by decide, by decide,
   (nota_missing_items_flagged notaMissingDf notaMissingOut (by decide) (by decide)
      (by decide) (by decide) (by decide) (by decide)).1
     (Cell.str "K1") (Cell.str "1") (by decide)⟩
/-- `getD` with default 0 is monotone on a sorted list, within bounds. -/
theorem getD_mono_of_sorted (l : List ℚ) (hs : List.Pairwise (· ≤ ·) l) {i j : ℕ}
    (hij : i ≤ j) (hj : j < l.length) : l.getD i 0 ≤ l.getD j 0 := by
  rcases Nat.eq_or_lt_of_le hij with rfl | hlt
  · exact le_refl _
  · rw [List.getD_eq_getElem l 0 (lt_trans hlt hj), List.getD_eq_getElem l 0 hj]
    exact List.pairwise_iff_getElem.1 hs i j (lt_trans hlt hj) hj hlt

/-- The interpolation upper neighbour is at least the lower one. -/
theorem lo_le_hi_of_sorted (l : List ℚ) (hs : List.Pairwise (· ≤ ·) l) (i : ℕ)
    (hi : i < l.length) : l.getD i 0 ≤ l.getD (i + 1) (l.getD i 0) := by
  by_cases h : i + 1 < l.length
  · rw [List.getD_eq_getElem l _ h, List.getD_eq_getElem l 0 hi]
    exact List.pairwise_iff_getElem.1 hs i (i + 1) hi h (Nat.lt_succ_self i)
  · rw [List.getD_eq_default _ _ (Nat.le_of_not_lt h)]

/-- Linear-interpolation quantiles are monotone in the probability on a
sorted list. -/
theorem pdQuantile_mono (l : List ℚ) (hs : List.Pairwise (· ≤ ·) l)
    (hne : l ≠ []) {p p' : ℚ} (hp0 : 0 ≤ p) (hpp : p ≤ p') (hp1 : p' ≤ 1) :
    pdQuantile l p ≤ pdQuantile l p' := by
  have hn1 : 1 ≤ l.length := List.length_pos.2 hne
  have hnn : (0 : ℚ) ≤ (l.length : ℚ) - 1 := by
    have : (1 : ℚ) ≤ (l.length : ℚ) := by exact_mod_cast hn1
    linarith
  unfold pdQuantile
  dsimp only
  set h := p * ((l.length : ℚ) - 1) with hdef
  set h' := p' * ((l.length : ℚ) - 1) with hdef'
  have hh : h ≤ h' := mul_le_mul_of_nonneg_right hpp hnn
  have h0 : 0 ≤ h := mul_nonneg hp0 hnn
  have hfl0 : 0 ≤ ⌊h⌋ := Int.floor_nonneg.2 h0
  have hfl0' : 0 ≤ ⌊h'⌋ := le_trans hfl0 (Int.floor_le_floor hh)
  have icast : ((⌊h⌋.toNat : ℕ) : ℚ) = ((⌊h⌋ : ℤ) : ℚ) := by
    rw [← Int.toNat_of_nonneg hfl0]
    push_cast
    rfl
  have icast' : ((⌊h'⌋.toNat : ℕ) : ℚ) = ((⌊h'⌋ : ℤ) : ℚ) := by
    rw [← Int.toNat_of_nonneg hfl0']
    push_cast
    rfl
  have hile : ((⌊h⌋.toNat : ℕ) : ℚ) ≤ h := by
    rw [icast]
    exact Int.floor_le h
  have hile' : ((⌊h'⌋.toNat : ℕ) : ℚ) ≤ h' := by
    rw [icast']
    exact Int.floor_le h'
  have hfrac_lt : h - ((⌊h⌋.toNat : ℕ) : ℚ) < 1 := by
    rw [icast]
    have := Int.lt_floor_add_one h
    linarith
  have hfl'le : ⌊h'⌋ ≤ (l.length : ℤ) - 1 := by
    have h1 : h' ≤ (l.length : ℚ) - 1 := by
      rw [hdef']
      nlinarith
    have h2 : ((l.length : ℚ) - 1) = (((l.length : ℤ) - 1 : ℤ) : ℚ) := by
      push_cast
      ring
    have := Int.floor_le_floor h1
    rwa [h2, Int.floor_intCast] at this
  have hi'_lt : ⌊h'⌋.toNat < l.length := by omega
  by_cases hcase : ⌊h⌋ = ⌊h'⌋
  · rw [hcase]
    have hlh := lo_le_hi_of_sorted l hs (⌊h'⌋.toNat) hi'_lt
    nlinarith [sub_nonneg.2 hlh, sub_le_sub_right hh ((⌊h'⌋.toNat : ℕ) : ℚ)]
  · have hltf : ⌊h⌋ < ⌊h'⌋ := lt_of_le_of_ne (Int.floor_le_floor hh) hcase
    have hi_succ_le : ⌊h⌋.toNat + 1 ≤ ⌊h'⌋.toNat := by omega
    have hi_lt : ⌊h⌋.toNat < l.length := by omega
    have hi1_lt : ⌊h⌋.toNat + 1 < l.length ∨ ⌊h⌋.toNat + 1 = ⌊h'⌋.toNat
        ∨ ⌊h⌋.toNat + 1 < l.length := by omega
    have hi1_lt' : ⌊h⌋.toNat + 1 < l.length := by omega
    have hlh := lo_le_hi_of_sorted l hs (⌊h⌋.toNat) hi_lt
    have hlh' := lo_le_hi_of_sorted l hs (⌊h'⌋.toNat) hi'_lt
    have hhi_eq : l.getD (⌊h⌋.toNat + 1) (l.getD (⌊h⌋.toNat) 0)
        = l.getD (⌊h⌋.toNat + 1) 0 := by
      rw [List.getD_eq_getElem l _ hi1_lt', List.getD_eq_getElem l 0 hi1_lt']
    have hmid : l.getD (⌊h⌋.toNat + 1) 0 ≤ l.getD (⌊h'⌋.toNat) 0 :=
      getD_mono_of_sorted l hs hi_succ_le hi'_lt
    have hq_le_hi : l.getD (⌊h⌋.toNat) 0
        + (h - ((⌊h⌋.toNat : ℕ) : ℚ)) * (l.getD (⌊h⌋.toNat + 1) (l.getD (⌊h⌋.toNat) 0)
          - l.getD (⌊h⌋.toNat) 0)
        ≤ l.getD (⌊h⌋.toNat + 1) (l.getD (⌊h⌋.toNat) 0) := by
      nlinarith [sub_nonneg.2 hlh, hfrac_lt]
    have hlo'_le_q : l.getD (⌊h'⌋.toNat) 0
        ≤ l.getD (⌊h'⌋.toNat) 0
          + (h' - ((⌊h'⌋.toNat : ℕ) : ℚ)) * (l.getD (⌊h'⌋.toNat + 1) (l.getD (⌊h'⌋.toNat) 0)
            - l.getD (⌊h'⌋.toNat) 0) := by
      nlinarith [sub_nonneg.2 hlh', sub_nonneg.2 hile']
    calc l.getD (⌊h⌋.toNat) 0
        + (h - ((⌊h⌋.toNat : ℕ) : ℚ)) * (l.getD (⌊h⌋.toNat + 1) (l.getD (⌊h⌋.toNat) 0)
          - l.getD (⌊h⌋.toNat) 0)
        ≤ l.getD (⌊h⌋.toNat + 1) (l.getD (⌊h⌋.toNat) 0) := hq_le_hi
      _ = l.getD (⌊h⌋.toNat + 1) 0 := hhi_eq
      _ ≤ l.getD (⌊h'⌋.toNat) 0 := hmid
      _ ≤ _ := hlo'_le_q

/-- C6 (`detect_outliers`): for every numeric column, the IQR outlier report
agrees with the specification's account — a record appears exactly for
columns with at least 8 non-null values, strictly positive IQR and at least
one value strictly outside `[Q1 - 1.5*IQR, Q3 + 1.5*IQR]`, listing the count
of such values, their percentage, both bounds, and the mean shift caused by
removing them; columns with fewer than 8 values, zero IQR, or no flagged
value produce no record. -/
theorem detect_outliers_spec (df : List (String × List (Option ℚ)))
    (numericCols : List String) :
    detect_outliers df numericCols = numericCols.filterMap (outlierSpecRecord df) := by
  unfold detect_outliers
  refine List.filterMap_congr ?_
  intro col _
  unfold outlierSpecRecord
  dsimp only
  set series := ((List.lookup col df).getD []).filterMap id with hser
  set q1 := pdQuantile (sortQ series) (1/4) with hq1d
  set q3 := pdQuantile (sortQ series) (3/4) with hq3d
  by_cases hlen : series.length < 8
  · rw [if_pos hlen, if_neg]
    intro hcontra
    exact absurd hcontra.1 (by omega)
  · rw [if_neg hlen]
    have hlen8 : 8 ≤ series.length := Nat.le_of_not_lt hlen
    have hsortp : List.Pairwise (fun a b : ℚ => a ≤ b) (sortQ series) :=
      List.sorted_insertionSort (fun a b : ℚ => a ≤ b) series
    have hslen : (sortQ series).length = series.length :=
      (List.perm_insertionSort (fun a b : ℚ => a ≤ b) series).length_eq
    have hsne : sortQ series ≠ [] := by
      intro hnil
      rw [hnil] at hslen
      simp at hslen
      omega
    have hq13 : q1 ≤ q3 := by
      rw [hq1d, hq3d]
      exact pdQuantile_mono (sortQ series) hsortp hsne (by norm_num) (by norm_num)
        (by norm_num)
    by_cases hiqr : q3 - q1 = 0
    · rw [if_pos hiqr, if_neg]
      intro hcontra
      exact absurd hcontra.2.1 (by rw [hiqr]; exact lt_irrefl 0)
    · rw [if_neg hiqr]
      have hiqrpos : 0 < q3 - q1 := lt_of_le_of_ne (sub_nonneg.2 hq13) (Ne.symm hiqr)
      have hcpe := List.countP_eq_length_filter
        (fun v => decide (v < q1 - 3/2 * (q3 - q1)) || decide (q3 + 3/2 * (q3 - q1) < v))
        series
      by_cases hcount : series.countP
          (fun v => decide (v < q1 - 3/2 * (q3 - q1))
            || decide (q3 + 3/2 * (q3 - q1) < v)) = 0
      · rw [if_pos hcount, if_neg]
        intro hcontra
        apply hcontra.2.2
        rw [← List.length_eq_zero, ← hcpe]
        exact hcount
      · rw [if_neg hcount, if_pos]
        · rw [hcpe]
        · refine ⟨hlen8, hiqrpos, ?_⟩
          intro hnil
          apply hcount
          rw [hcpe, hnil]
          rfl
end Theorems

end Projeto
